import Mathlib

/-!
Verification development for the e-mail service prefab (`src/main.py`).

The three public operations — `send_email`, `send_bulk_email` and
`send_email_with_template` — are shallowly embedded below.  External effects
are made explicit parameters:

* the process environment becomes an `Env` record of optional strings;
* the attachments directory becomes an optional list of `FileEntry`;
* the SMTP transport (smtplib) becomes a `Transport` oracle that says, for
  each transport call the code can make, whether it succeeds or raises and
  with which Python exception class; the calls actually issued are returned
  as a `TEvent` trace.

All functions are computable and structurally recursive so that concrete
runs evaluate by `decide` / `rfl`.
-/

/-- Python `str.split(',')` over the character list: splits at every comma,
keeping empty segments (`"".split(',') == ['']`). -/
def splitCommaCh : List Char → List (List Char)
  | [] => [[]]
  | c :: rest =>
    if c = ',' then [] :: splitCommaCh rest
    else
      match splitCommaCh rest with
      | [] => [[c]]
      | g :: gs => (c :: g) :: gs

/-- The characters Python `str.strip()` removes (ASCII whitespace). -/
def pyIsSpace (c : Char) : Bool :=
  c = ' ' || c = '\t' || c = '\n' || c = '\r' || c = '\x0b' || c = '\x0c'

/-- Python `str.strip()` on a character list. -/
def pyStripCh (l : List Char) : List Char :=
  ((l.dropWhile pyIsSpace).reverse.dropWhile pyIsSpace).reverse

/-- Python `str.strip()`. -/
def pyStrip (s : String) : String :=
  String.mk (pyStripCh s.data)

/-- Line 116/117/118 of the source:
`[addr.strip() for addr in to.split(',')]`. -/
def parseAddrList (s : String) : List String :=
  (splitCommaCh s.data).map (fun cs => String.mk (pyStripCh cs))

/-- Value of an ASCII digit run, `none` if empty or a non-digit occurs. -/
def digitsVal (l : List Char) : Option Nat :=
  if l.isEmpty then none
  else if l.all Char.isDigit then
    some (l.foldl (fun a c => a * 10 + (c.toNat - '0'.toNat)) 0)
  else none

/-- Python `int(s)` on a string (the subset without underscores and
non-ASCII digits): strip whitespace, optional sign, decimal digits;
`none` models the `ValueError` raised on anything else. -/
def pyInt (s : String) : Option Int :=
  match pyStripCh s.data with
  | '-' :: ds => (digitsVal ds).map (fun n => -(n : Int))
  | '+' :: ds => (digitsVal ds).map (fun n => (n : Int))
  | ds => (digitsVal ds).map (fun n => (n : Int))

/-- Python truthiness of `os.environ.get(k)`: falsy iff absent or `""`. -/
def optFalsy : Option String → Bool
  | none => true
  | some s => s.isEmpty

/-- The five SMTP environment variables, each `none` when absent from the
environment (`os.environ.get` returning `None`). -/
structure Env where
  host : Option String
  port : Option String
  username : Option String
  password : Option String
  useTls : Option String
deriving Repr, DecidableEq

/-- Lines 68-76: the `missing_configs` list, built in the fixed order
HOST, PORT, USERNAME, PASSWORD; a variable counts as missing when its
value is falsy (absent or empty). -/
def missingConfigList (env : Env) : List String :=
  (if optFalsy env.host then ["SMTP_HOST"] else []) ++
  (if optFalsy env.port then ["SMTP_PORT"] else []) ++
  (if optFalsy env.username then ["SMTP_USERNAME"] else []) ++
  (if optFalsy env.password then ["SMTP_PASSWORD"] else [])

/-- Python `str.lower()` (the ASCII subset), over the character list. -/
def pyLower (s : String) : String :=
  String.mk (s.data.map Char.toLower)

/-- Line 65: the environment value of SMTP_USE_TLS, defaulted to true,
lowercased and compared with the string true. -/
def useTlsOf (env : Env) : Bool :=
  pyLower (env.useTls.getD "true") == "true"

/-- One directory entry of `data/inputs/attachments/`: its name, whether it
is a regular file, and `some msg` when opening/reading it raises. -/
structure FileEntry where
  name : String
  isFile : Bool
  readErr : Option String
deriving Repr, DecidableEq

/-- Lines 133-155: the first attachment file whose read fails, after
filtering directory entries down to regular files; `none` when the
directory does not exist or every file reads fine. -/
def attachFailure (d : Option (List FileEntry)) : Option FileEntry :=
  match d with
  | none => none
  | some es => (es.filter (fun f => f.isFile)).find? (fun f => f.readErr.isSome)

/-- Names of the attachments that get attached to the message, in
directory order (regular files only). -/
def attachNames (d : Option (List FileEntry)) : List String :=
  match d with
  | none => []
  | some es => (es.filter (fun f => f.isFile)).map (fun f => f.name)

/-- The MIME message assembled by lines 120-130: From/To/Subject headers,
an optional Cc header (only when `cc` is truthy), the body with its type,
and the attachment file names. -/
structure OutgoingMsg where
  fromAddr : String
  toHeader : String
  subject : String
  ccHeader : Option String
  body : String
  bodyType : String
  attachments : List String
deriving Repr, DecidableEq

/-- Line 121-130 message construction. -/
def msgOf (env : Env) (d : Option (List FileEntry))
    (toAddr subject body : String) (cc : Option String) (bodyType : String) :
    OutgoingMsg :=
  { fromAddr := env.username.getD ""
    toHeader := toAddr
    subject := subject
    ccHeader := if optFalsy cc then none else cc
    body := body
    bodyType := bodyType
    attachments := attachNames d }

/-- The Python exception classes distinguished by the handlers at lines
191-208: `smtplib.SMTPAuthenticationError`, any other `smtplib.SMTPException`,
and any other `Exception` (e.g. `OSError` from a failed connect). -/
inductive PyExc where
  | smtpAuth (m : String)
  | smtpOther (m : String)
  | other (m : String)
deriving Repr, DecidableEq

/-- Outcome oracle for the transport: for each smtplib call the code can
make, `none` means the call succeeds, `some e` means it raises `e`.
This models the external SMTP world of one `send_email` call. -/
structure Transport where
  connectPlain : Option PyExc
  starttls : Option PyExc
  connectSSL : Option PyExc
  login : Option PyExc
  send : Option PyExc
  quit : Option PyExc
deriving Repr, DecidableEq

/-- Transport calls actually issued, in order. -/
inductive TEvent where
  | connectPlain (host : String) (port : Int)
  | connectSSL (host : String) (port : Int)
  | starttls
  | login (user pw : String)
  | send (msg : OutgoingMsg) (rcpts : List String)
  | quit
deriving Repr, DecidableEq

/-- Lines 179-181: `login`, `send_message`, `quit` in order, stopping at the
first raised exception. -/
def transportTail (tr : Transport) (user pw : String) (msg : OutgoingMsg)
    (rcpts : List String) : Option PyExc × List TEvent :=
  match tr.login with
  | some e => (some e, [.login user pw])
  | none =>
    match tr.send with
    | some e => (some e, [.login user pw, .send msg rcpts])
    | none =>
      match tr.quit with
      | some e => (some e, [.login user pw, .send msg rcpts, .quit])
      | none => (none, [.login user pw, .send msg rcpts, .quit])

/-- Lines 170-181: the TLS branch opens a plaintext connection and upgrades
it with `starttls`; the SSL branch opens an implicit-TLS connection; then
both authenticate, deliver and quit.  Returns the first exception (if any)
and the trace of calls issued. -/
def runTransport (tr : Transport) (useTls : Bool) (host : String) (port : Int)
    (user pw : String) (msg : OutgoingMsg) (rcpts : List String) :
    Option PyExc × List TEvent :=
  if useTls then
    match tr.connectPlain with
    | some e => (some e, [.connectPlain host port])
    | none =>
      match tr.starttls with
      | some e => (some e, [.connectPlain host port, .starttls])
      | none =>
        match transportTail tr user pw msg rcpts with
        | (r, evs) => (r, .connectPlain host port :: .starttls :: evs)
  else
    match tr.connectSSL with
    | some e => (some e, [.connectSSL host port])
    | none =>
      match transportTail tr user pw msg rcpts with
      | (r, evs) => (r, .connectSSL host port :: evs)

/-- The result dictionary of `send_email` / `send_email_with_template`;
keys that a given return statement does not set are `none`. -/
structure SendResult where
  success : Bool
  message : Option String
  error : Option String
  errorCode : Option String
  missingConfigs : Option (List String)
  recipients : Option (List String)
  cc : Option (List String)
  bccCount : Option Nat
  templateType : Option String
deriving Repr, DecidableEq

/-- A plain failure return carrying only an error text and an error code. -/
def errResult (e c : String) : SendResult :=
  ⟨false, none, some e, some c, none, none, none, none, none⟩

/-- Lines 79-84: the `MISSING_SMTP_CONFIG` return. -/
def missingConfigResult (ms : List String) : SendResult :=
  ⟨false, none, some ("缺少必需的 SMTP 配置: " ++ String.intercalate ", " ms),
   some "MISSING_SMTP_CONFIG", some ms, none, none, none, none⟩

/-- Lines 183-189: the success return of `send_email`. -/
def okResult (toAddrs : List String) (ccAddrs bccAddrs : List String) :
    SendResult :=
  ⟨true, some "邮件发送成功", none, none, none, some toAddrs,
   (if ccAddrs.isEmpty then none else some ccAddrs),
   some (if bccAddrs.isEmpty then 0 else bccAddrs.length), none⟩

/-- Lines 191-208: the three `except` clauses around the transport calls,
in Python resolution order (`SMTPAuthenticationError` is the most specific
class, then `SMTPException`, then `Exception`). -/
def excResult : PyExc → SendResult
  | .smtpAuth _ => errResult "SMTP 认证失败，请检查用户名和密码" "SMTP_AUTH_ERROR"
  | .smtpOther m => errResult ("SMTP 错误: " ++ m) "SMTP_ERROR"
  | .other m => errResult ("连接 SMTP 服务器失败: " ++ m) "SMTP_CONNECTION_ERROR"

/-- The `to`/`cc`/`bcc` parse of lines 117-118: `[] ` when the optional
argument is falsy, else split-and-strip. -/
def optAddrs (o : Option String) : List String :=
  if optFalsy o then [] else parseAddrList (o.getD "")

/-- Line 168: `all_recipients = to_addresses + cc_addresses + bcc_addresses`. -/
def allRecipientsOf (toAddr : String) (cc bcc : Option String) : List String :=
  parseAddrList toAddr ++ optAddrs cc ++ optAddrs bcc

/-- Lines 157-208 of `send_email`, after validation and attachment
processing succeeded: parse the port, run the transport, and map the
outcome to a result. -/
def transportStage (env : Env) (d : Option (List FileEntry)) (tr : Transport)
    (toAddr subject body : String) (cc bcc : Option String) (bodyType : String)
    (port : Int) : SendResult × List TEvent :=
  match runTransport tr (useTlsOf env) (env.host.getD "") port
      (env.username.getD "") (env.password.getD "")
      (msgOf env d toAddr subject body cc bodyType)
      (allRecipientsOf toAddr cc bcc) with
  | (none, evs) =>
    (okResult (parseAddrList toAddr) (optAddrs cc) (optAddrs bcc), evs)
  | (some e, evs) => (excResult e, evs)

/-- Shallow embedding of `send_email` (lines 20-215).  Stages in source
order: SMTP config check, argument validation, attachment scan,
port parsing, transport.  Returns the result dictionary together with the
trace of transport calls issued. -/
def sendEmail (env : Env) (d : Option (List FileEntry)) (tr : Transport)
    (toAddr subject body : String) (cc bcc : Option String) (bodyType : String) :
    SendResult × List TEvent :=
  match missingConfigList env with
  | m :: ms => (missingConfigResult (m :: ms), [])
  | [] =>
    if toAddr.isEmpty then
      (errResult "收件人地址 (to) 必须是非空字符串" "INVALID_RECIPIENT", [])
    else if subject.isEmpty then
      (errResult "邮件主题 (subject) 必须是非空字符串" "INVALID_SUBJECT", [])
    else if body.isEmpty then
      (errResult "邮件正文 (body) 必须是非空字符串" "INVALID_BODY", [])
    else if ¬ (bodyType = "plain" ∨ bodyType = "html") then
      (errResult "body_type 必须是 \x27plain\x27 或 \x27html\x27" "INVALID_BODY_TYPE", [])
    else
      match attachFailure d with
      | some f =>
        (errResult ("处理附件失败 (" ++ f.name ++ "): " ++ f.readErr.getD "")
          "ATTACHMENT_ERROR", [])
      | none =>
        match pyInt (env.port.getD "") with
        | none =>
          (errResult ("SMTP_PORT 必须是数字: " ++ env.port.getD "")
            "INVALID_PORT", [])
        | some port =>
          transportStage env d tr toAddr subject body cc bcc bodyType port

/-- One line of the bulk result detail list (lines 294-299). -/
structure BulkItem where
  recipient : String
  success : Bool
  error : Option String
  errorCode : Option String
deriving Repr, DecidableEq

/-- The result dictionary of `send_bulk_email`: either one of its three
validation errors, or the aggregate (lines 301-307). -/
inductive BulkResult where
  | errR (error errorCode : String)
  | okR (success : Bool) (total succeeded failed : Nat) (results : List BulkItem)
deriving Repr, DecidableEq

/-- The per-recipient dictionary appended at lines 294-299. -/
def bulkItemOf (f : String → SendResult) (r : String) : BulkItem :=
  ⟨r, (f r).success, (f r).error, (f r).errorCode⟩

/-- The loop of lines 281-299: accumulate detail lines and the
succeeded/failed counters over the recipients in order. -/
def bulkLoop (f : String → SendResult) :
    List String → List BulkItem → Nat → Nat → List BulkItem × Nat × Nat
  | [], acc, s, fl => (acc, s, fl)
  | r :: rest, acc, s, fl =>
    bulkLoop f rest (acc ++ [bulkItemOf f r])
      (if (f r).success then s + 1 else s)
      (if (f r).success then fl else fl + 1)

/-- Shallow embedding of `send_bulk_email` (lines 218-314).  The transport
oracle may differ per recipient (`trOf`), modelling that each recipient is
an independent delivery attempt against the outside world. -/
def sendBulkEmail (env : Env) (d : Option (List FileEntry))
    (trOf : String → Transport) (recipients : List String)
    (subject body bodyType : String) : BulkResult :=
  if recipients.isEmpty then
    .errR "recipients 必须是非空列表" "INVALID_RECIPIENTS"
  else if subject.isEmpty then
    .errR "邮件主题 (subject) 必须是非空字符串" "INVALID_SUBJECT"
  else if body.isEmpty then
    .errR "邮件正文 (body) 必须是非空字符串" "INVALID_BODY"
  else
    match bulkLoop
        (fun r => (sendEmail env d (trOf r) r subject body none none bodyType).1)
        recipients [] 0 0 with
    | (results, s, fl) => .okR (fl == 0) recipients.length s fl results

/-- A Python value as `template_data` may contain one: a string, a list of
strings (`features`), a string-to-string mapping (`details`), a list of
mappings (`stats`), or `None`.  These are the value shapes the template
interface consumes (spec §3 TemplateRequest). -/
inductive PyVal where
  | str (s : String)
  | list (xs : List String)
  | dict (kvs : List (String × String))
  | dictList (xs : List (List (String × String)))
  | none
deriving Repr, DecidableEq

/-- The `template_data` dictionary. -/
def TemplateData := List (String × PyVal)

/-- `template_data.get(k)`: the value under `k`, `None` when absent. -/
def tdGet (td : TemplateData) (k : String) : PyVal :=
  match td.find? (fun kv => kv.1 == k) with
  | some kv => kv.2
  | Option.none => .none

/-- `template_data.get(k, dflt)`. -/
def tdGetD (td : TemplateData) (k : String) (dflt : PyVal) : PyVal :=
  match td.find? (fun kv => kv.1 == k) with
  | some kv => kv.2
  | Option.none => dflt

/-- Python truthiness of a `PyVal` (empty collections, `""` and `None`
are falsy). -/
def pyTruthy : PyVal → Bool
  | .str s => !s.isEmpty
  | .list xs => !xs.isEmpty
  | .dict kvs => !kvs.isEmpty
  | .dictList xs => !xs.isEmpty
  | .none => false

/-- A single quote character, written escaped. -/
def pySq : String := String.singleton '\x27'

/-- Python `str()` of a string-to-string dict, as Python prints it. -/
def pyDictStr (kvs : List (String × String)) : String :=
  "\x7b" ++ String.intercalate ", "
    (kvs.map (fun kv => pySq ++ kv.1 ++ pySq ++ ": " ++ pySq ++ kv.2 ++ pySq)) ++ "\x7d"

/-- Python `str()` of a `PyVal` (`repr` of the elements inside lists and
dicts, as Python prints them). -/
def pyStr : PyVal → String
  | .str s => s
  | .list xs => "[" ++ String.intercalate ", " (xs.map (fun x => pySq ++ x ++ pySq)) ++ "]"
  | .dict kvs => pyDictStr kvs
  | .dictList xs =>
    "[" ++ String.intercalate ", " (xs.map (fun kvs => pyDictStr kvs)) ++ "]"
  | .none => "None"

/-- Python iteration over a truthy `PyVal`: a string iterates its
characters, a list its elements, a dict its keys, a list of dicts its
dicts.  (`None` is falsy and never iterated by the guarded loops.) -/
def pyIterate : PyVal → List PyVal
  | .str s => s.data.map (fun c => .str (String.singleton c))
  | .list xs => xs.map (fun x => .str x)
  | .dict kvs => kvs.map (fun kv => .str kv.1)
  | .dictList xs => xs.map (fun kvs => .dict kvs)
  | .none => []

/-- Python error classes the renderer can raise, as the two `except`
clauses of lines 716-727 distinguish them: `KeyError` versus any other
exception (`AttributeError`, `TypeError`, ...). -/
inductive PyErr where
  | keyError (k : String)
  | otherError (m : String)
deriving Repr, DecidableEq

/-- The Python type name, for `AttributeError` messages. -/
def pyTypeNameOf : PyVal → String
  | .str _ => "str"
  | .list _ => "list"
  | .dict _ => "dict"
  | .dictList _ => "list"
  | .none => "NoneType"

/-- Lines 656-659: the button fragment, emitted only when both
`button_text` and `button_url` are truthy. -/
def buttonHtmlOf (td : TemplateData) : String :=
  if pyTruthy (tdGet td "button_text") && pyTruthy (tdGet td "button_url") then
    "<a href=\"" ++ pyStr (tdGet td "button_url") ++ "\" class=\"button\">"
      ++ pyStr (tdGet td "button_text") ++ "</a>"
  else ""

/-- Lines 662-670: the features fragment of the welcome template, one
`feature-item` div per iterated element; empty for any other template type
or when `features` is falsy. -/
def featuresHtmlOf (templateType : String) (td : TemplateData) : String :=
  if templateType == "welcome" && pyTruthy (tdGet td "features") then
    ((pyIterate (tdGet td "features")).foldl
      (fun acc f => acc ++ "<div class=\"feature-item\">" ++ pyStr f ++ "</div>")
      "<div class=\"features\">") ++ "</div>"
  else ""

/-- Lines 672-680: the details fragment of the alert template; iterating
`.items()` of a truthy non-dict raises `AttributeError`. -/
def detailsHtmlOf (templateType : String) (td : TemplateData) :
    Except PyErr String :=
  if templateType == "alert" && pyTruthy (tdGet td "details") then
    match tdGet td "details" with
    | .dict kvs =>
      .ok (((kvs.foldl
        (fun acc kv => acc ++ "<div><strong>" ++ kv.1 ++ ":</strong> " ++ kv.2 ++ "</div>")
        "<div class=\"details\">")) ++ "</div>")
    | v =>
      .error (.otherError
        (pySq ++ pyTypeNameOf v ++ pySq ++ " object has no attribute " ++ pySq ++ "items" ++ pySq))
  else .ok ""

/-- The stat-card fragment of one stat (lines 686-691, a triple-quoted
f-string, whitespace included). -/
def statCardOf (stat : List (String × String)) : String :=
  "\n                <div class=\"stat-card\">\n                    <div class=\"stat-value\">"
    ++ ((stat.find? (fun kv => kv.1 == "value")).map (fun kv => kv.2)).getD "N/A"
    ++ "</div>\n                    <div class=\"stat-label\">"
    ++ ((stat.find? (fun kv => kv.1 == "label")).map (fun kv => kv.2)).getD ""
    ++ "</div>\n                </div>\n                "

/-- Lines 682-695: the stats fragment of the report template; a truthy
`stats` whose iterated elements are not dicts raises `AttributeError` at
`stat.get`. -/
def statsHtmlOf (templateType : String) (td : TemplateData) :
    Except PyErr String :=
  if templateType == "report" && pyTruthy (tdGet td "stats") then
    match tdGet td "stats" with
    | .dictList xs =>
      .ok ((xs.foldl (fun acc stat => acc ++ statCardOf stat)
        "<div class=\"stats\">") ++ "</div>")
    | _ =>
      .error (.otherError
        (pySq ++ "str" ++ pySq ++ " object has no attribute " ++ pySq ++ "get" ++ pySq))
  else .ok ""


/-- One piece of a Python format string as `str.format` parses it: a run of
literal text (format escapes already undoubled: a `\x7b\x7b` in the source
layout is one literal brace here) or a named replacement field. -/
inductive FmtSeg where
  | lit (s : String)
  | hole (name : String)
deriving Repr, DecidableEq

/-- The replacement-field name of a segment, if it is one. -/
def holeNameOf : FmtSeg → Option String
  | .hole n => some n
  | .lit _ => Option.none

/-- `str.format(**vars)` over a parsed format string: substitute each
field from `vars`, raising `KeyError` on a missing name. -/
def fmtRender (vars : String → Option String) : List FmtSeg → Except PyErr String
  | [] => .ok ""
  | .lit s :: ts => (fmtRender vars ts).map (fun r => s ++ r)
  | .hole n :: ts =>
    match vars n with
    | some v => (fmtRender vars ts).map (fun r => v ++ r)
    | Option.none => .error (.keyError n)

def tmplNotification : List FmtSeg :=
  [.lit "\n<!DOCTYPE html>\n<html>\n<head>\n    <meta charset=\"UTF-8\">\n    <meta name=\"viewport\" content=\"width=device-width, initial-scale=1.0\">\n    <style>\n        body \x7b",
   .lit " font-family: \x27Segoe UI\x27, Tahoma, Geneva, Verdana, sans-serif; line-height: 1.6;\n               color: #333; margin: 0; padding: 0; background-color: #f4f4f4; \x7d",
   .lit "\n        .container \x7b",
   .lit " max-width: 600px; margin: 20px auto; background: #ffffff; border-radius: 10px;\n                      box-shadow: 0 2px 10px rgba(0,0,0,0.1); overflow: hidden; \x7d",
   .lit "\n        .header \x7b",
   .lit " background: linear-gradient(135deg, #667eea 0%, #764ba2 100%); color: white;\n                   padding: 30px; text-align: center; \x7d",
   .lit "\n        .header h1 \x7b",
   .lit " margin: 0; font-size: 28px; font-weight: 600; \x7d",
   .lit "\n        .content \x7b",
   .lit " padding: 30px; \x7d",
   .lit "\n        .content h2 \x7b",
   .lit " color: #667eea; margin-top: 0; \x7d",
   .lit "\n        .message \x7b",
   .lit " background: #f8f9fa; padding: 20px; border-left: 4px solid #667eea;\n                    border-radius: 5px; margin: 20px 0; \x7d",
   .lit "\n        .footer \x7b",
   .lit " background: #f8f9fa; padding: 20px; text-align: center; color: #666;\n                   font-size: 14px; border-top: 1px solid #e0e0e0; \x7d",
   .lit "\n        .button \x7b",
   .lit " display: inline-block; padding: 12px 30px; background: #667eea; color: white;\n                   text-decoration: none; border-radius: 5px; margin: 20px 0; font-weight: 600; \x7d",
   .lit "\n        .button:hover \x7b",
   .lit " background: #5568d3; \x7d",
   .lit "\n    </style>\n</head>\n<body>\n    <div class=\"container\">\n        <div class=\"header\">\n            <h1>📢 ",
   .hole "title",
   .lit "</h1>\n        </div>\n        <div class=\"content\">\n            <h2>",
   .hole "heading",
   .lit "</h2>\n            <div class=\"message\">\n                ",
   .hole "message",
   .lit "\n            </div>\n            ",
   .hole "button_html",
   .lit "\n            ",
   .hole "extra_content",
   .lit "\n        </div>\n        <div class=\"footer\">\n            ",
   .hole "footer",
   .lit "\n        </div>\n    </div>\n</body>\n</html>\n"]

def tmplWelcome : List FmtSeg :=
  [.lit "\n<!DOCTYPE html>\n<html>\n<head>\n    <meta charset=\"UTF-8\">\n    <meta name=\"viewport\" content=\"width=device-width, initial-scale=1.0\">\n    <style>\n        body \x7b",
   .lit " font-family: \x27Segoe UI\x27, Tahoma, Geneva, Verdana, sans-serif; line-height: 1.6;\n               color: #333; margin: 0; padding: 0; background-color: #f4f4f4; \x7d",
   .lit "\n        .container \x7b",
   .lit " max-width: 600px; margin: 20px auto; background: #ffffff; border-radius: 10px;\n                      box-shadow: 0 2px 10px rgba(0,0,0,0.1); overflow: hidden; \x7d",
   .lit "\n        .header \x7b",
   .lit " background: linear-gradient(135deg, #43e97b 0%, #38f9d7 100%); color: white;\n                   padding: 40px; text-align: center; \x7d",
   .lit "\n        .header h1 \x7b",
   .lit " margin: 0; font-size: 32px; font-weight: 600; \x7d",
   .lit "\n        .welcome-icon \x7b",
   .lit " font-size: 60px; margin-bottom: 10px; \x7d",
   .lit "\n        .content \x7b",
   .lit " padding: 30px; \x7d",
   .lit "\n        .welcome-message \x7b",
   .lit " font-size: 18px; margin: 20px 0; color: #555; \x7d",
   .lit "\n        .features \x7b",
   .lit " background: #f8f9fa; padding: 20px; border-radius: 5px; margin: 20px 0; \x7d",
   .lit "\n        .feature-item \x7b",
   .lit " margin: 10px 0; padding-left: 25px; position: relative; \x7d",
   .lit "\n        .feature-item:before \x7b",
   .lit " content: \"✓\"; position: absolute; left: 0; color: #43e97b;\n                                font-weight: bold; \x7d",
   .lit "\n        .button \x7b",
   .lit " display: inline-block; padding: 15px 40px; background: #43e97b; color: white;\n                   text-decoration: none; border-radius: 5px; margin: 20px 0; font-weight: 600;\n                   font-size: 16px; \x7d",
   .lit "\n        .button:hover \x7b",
   .lit " background: #3bd66f; \x7d",
   .lit "\n        .footer \x7b",
   .lit " background: #f8f9fa; padding: 20px; text-align: center; color: #666;\n                   font-size: 14px; border-top: 1px solid #e0e0e0; \x7d",
   .lit "\n    </style>\n</head>\n<body>\n    <div class=\"container\">\n        <div class=\"header\">\n            <div class=\"welcome-icon\">🎉</div>\n            <h1>",
   .hole "title",
   .lit "</h1>\n        </div>\n        <div class=\"content\">\n            <div class=\"welcome-message\">\n                ",
   .hole "message",
   .lit "\n            </div>\n            ",
   .hole "features_html",
   .lit "\n            ",
   .hole "button_html",
   .lit "\n            ",
   .hole "extra_content",
   .lit "\n        </div>\n        <div class=\"footer\">\n            ",
   .hole "footer",
   .lit "\n        </div>\n    </div>\n</body>\n</html>\n"]

def tmplAlert : List FmtSeg :=
  [.lit "\n<!DOCTYPE html>\n<html>\n<head>\n    <meta charset=\"UTF-8\">\n    <meta name=\"viewport\" content=\"width=device-width, initial-scale=1.0\">\n    <style>\n        body \x7b",
   .lit " font-family: \x27Segoe UI\x27, Tahoma, Geneva, Verdana, sans-serif; line-height: 1.6;\n               color: #333; margin: 0; padding: 0; background-color: #f4f4f4; \x7d",
   .lit "\n        .container \x7b",
   .lit " max-width: 600px; margin: 20px auto; background: #ffffff; border-radius: 10px;\n                      box-shadow: 0 2px 10px rgba(0,0,0,0.1); overflow: hidden; \x7d",
   .lit "\n        .header \x7b",
   .lit " background: linear-gradient(135deg, #f093fb 0%, #f5576c 100%); color: white;\n                   padding: 30px; text-align: center; \x7d",
   .lit "\n        .header h1 \x7b",
   .lit " margin: 0; font-size: 28px; font-weight: 600; \x7d",
   .lit "\n        .alert-icon \x7b",
   .lit " font-size: 60px; margin-bottom: 10px; \x7d",
   .lit "\n        .content \x7b",
   .lit " padding: 30px; \x7d",
   .lit "\n        .alert-box \x7b",
   .lit " background: #fff3cd; border-left: 4px solid #f5576c; padding: 20px;\n                      border-radius: 5px; margin: 20px 0; \x7d",
   .lit "\n        .alert-title \x7b",
   .lit " color: #f5576c; font-weight: 600; font-size: 18px; margin-bottom: 10px; \x7d",
   .lit "\n        .details \x7b",
   .lit " background: #f8f9fa; padding: 15px; border-radius: 5px; margin: 20px 0; \x7d",
   .lit "\n        .button \x7b",
   .lit " display: inline-block; padding: 12px 30px; background: #f5576c; color: white;\n                   text-decoration: none; border-radius: 5px; margin: 20px 0; font-weight: 600; \x7d",
   .lit "\n        .button:hover \x7b",
   .lit " background: #e04656; \x7d",
   .lit "\n        .footer \x7b",
   .lit " background: #f8f9fa; padding: 20px; text-align: center; color: #666;\n                   font-size: 14px; border-top: 1px solid #e0e0e0; \x7d",
   .lit "\n    </style>\n</head>\n<body>\n    <div class=\"container\">\n        <div class=\"header\">\n            <div class=\"alert-icon\">⚠️</div>\n            <h1>",
   .hole "title",
   .lit "</h1>\n        </div>\n        <div class=\"content\">\n            <div class=\"alert-box\">\n                <div class=\"alert-title\">",
   .hole "alert_title",
   .lit "</div>\n                <div>",
   .hole "message",
   .lit "</div>\n            </div>\n            ",
   .hole "details_html",
   .lit "\n            ",
   .hole "button_html",
   .lit "\n            ",
   .hole "extra_content",
   .lit "\n        </div>\n        <div class=\"footer\">\n            ",
   .hole "footer",
   .lit "\n        </div>\n    </div>\n</body>\n</html>\n"]

def tmplReport : List FmtSeg :=
  [.lit "\n<!DOCTYPE html>\n<html>\n<head>\n    <meta charset=\"UTF-8\">\n    <meta name=\"viewport\" content=\"width=device-width, initial-scale=1.0\">\n    <style>\n        body \x7b",
   .lit " font-family: \x27Segoe UI\x27, Tahoma, Geneva, Verdana, sans-serif; line-height: 1.6;\n               color: #333; margin: 0; padding: 0; background-color: #f4f4f4; \x7d",
   .lit "\n        .container \x7b",
   .lit " max-width: 600px; margin: 20px auto; background: #ffffff; border-radius: 10px;\n                      box-shadow: 0 2px 10px rgba(0,0,0,0.1); overflow: hidden; \x7d",
   .lit "\n        .header \x7b",
   .lit " background: linear-gradient(135deg, #4facfe 0%, #00f2fe 100%); color: white;\n                   padding: 30px; text-align: center; \x7d",
   .lit "\n        .header h1 \x7b",
   .lit " margin: 0; font-size: 28px; font-weight: 600; \x7d",
   .lit "\n        .content \x7b",
   .lit " padding: 30px; \x7d",
   .lit "\n        .summary \x7b",
   .lit " background: #f8f9fa; padding: 20px; border-radius: 5px; margin: 20px 0; \x7d",
   .lit "\n        .summary-title \x7b",
   .lit " color: #4facfe; font-weight: 600; font-size: 18px; margin-bottom: 15px; \x7d",
   .lit "\n        .stats \x7b",
   .lit " display: flex; flex-wrap: wrap; gap: 10px; margin: 20px 0; \x7d",
   .lit "\n        .stat-card \x7b",
   .lit " flex: 1; min-width: 150px; background: white; border: 2px solid #e0e0e0;\n                      border-radius: 5px; padding: 15px; text-align: center; \x7d",
   .lit "\n        .stat-value \x7b",
   .lit " font-size: 32px; font-weight: 600; color: #4facfe; \x7d",
   .lit "\n        .stat-label \x7b",
   .lit " color: #666; font-size: 14px; margin-top: 5px; \x7d",
   .lit "\n        .button \x7b",
   .lit " display: inline-block; padding: 12px 30px; background: #4facfe; color: white;\n                   text-decoration: none; border-radius: 5px; margin: 20px 0; font-weight: 600; \x7d",
   .lit "\n        .button:hover \x7b",
   .lit " background: #3d9ee6; \x7d",
   .lit "\n        .footer \x7b",
   .lit " background: #f8f9fa; padding: 20px; text-align: center; color: #666;\n                   font-size: 14px; border-top: 1px solid #e0e0e0; \x7d",
   .lit "\n    </style>\n</head>\n<body>\n    <div class=\"container\">\n        <div class=\"header\">\n            <h1>📊 ",
   .hole "title",
   .lit "</h1>\n        </div>\n        <div class=\"content\">\n            <div class=\"summary\">\n                <div class=\"summary-title\">",
   .hole "summary_title",
   .lit "</div>\n                ",
   .hole "message",
   .lit "\n            </div>\n            ",
   .hole "stats_html",
   .lit "\n            ",
   .hole "button_html",
   .lit "\n            ",
   .hole "extra_content",
   .lit "\n        </div>\n        <div class=\"footer\">\n            ",
   .hole "footer",
   .lit "\n        </div>\n    </div>\n</body>\n</html>\n"]

/-- The `EMAIL_TEMPLATES` table (lines 318-513), in source order, each
layout in its parsed-format-string form. -/
def EMAIL_TEMPLATES : List (String × List FmtSeg) :=
  [("notification", tmplNotification),
   ("welcome", tmplWelcome),
   ("alert", tmplAlert),
   ("report", tmplReport)]

/-- `template_type in EMAIL_TEMPLATES` and `EMAIL_TEMPLATES[template_type]`. -/
def templateLookup (templateType : String) : Option (List FmtSeg) :=
  (EMAIL_TEMPLATES.find? (fun kv => kv.1 == templateType)).map (fun kv => kv.2)

/-- The `template_vars` dictionary of lines 645-695: it always carries
exactly these eleven keys, whatever `template_data` holds. -/
structure TemplateVars where
  title : String
  heading : String
  message : String
  alertTitle : String
  summaryTitle : String
  extraContent : String
  footer : String
  buttonHtml : String
  featuresHtml : String
  detailsHtml : String
  statsHtml : String
deriving Repr, DecidableEq

/-- Key lookup into `template_vars`, as `format(**template_vars)` sees it. -/
def TemplateVars.find (v : TemplateVars) (n : String) : Option String :=
  if n = "title" then some v.title
  else if n = "heading" then some v.heading
  else if n = "message" then some v.message
  else if n = "alert_title" then some v.alertTitle
  else if n = "summary_title" then some v.summaryTitle
  else if n = "extra_content" then some v.extraContent
  else if n = "footer" then some v.footer
  else if n = "button_html" then some v.buttonHtml
  else if n = "features_html" then some v.featuresHtml
  else if n = "details_html" then some v.detailsHtml
  else if n = "stats_html" then some v.statsHtml
  else Option.none

/-- Lines 644-695: build `template_vars` (base fields with their defaults,
then the button / features / details / stats fragments).  The details and
stats fragments are where a malformed `template_data` value raises. -/
def buildTemplateVars (templateType : String) (td : TemplateData) :
    Except PyErr TemplateVars :=
  match detailsHtmlOf templateType td with
  | .error e => .error e
  | .ok detailsHtml =>
    match statsHtmlOf templateType td with
    | .error e => .error e
    | .ok statsHtml =>
      .ok
        { title := pyStr (tdGetD td "title" (.str ""))
          heading := pyStr (tdGetD td "heading" (.str ""))
          message := pyStr (tdGetD td "message" (.str ""))
          alertTitle := pyStr (tdGetD td "alert_title" (.str "重要提示"))
          summaryTitle := pyStr (tdGetD td "summary_title" (.str "摘要"))
          extraContent := pyStr (tdGetD td "extra_content" (.str ""))
          footer := pyStr (tdGetD td "footer" (.str "此邮件由系统自动发送，请勿回复。"))
          buttonHtml := buttonHtmlOf td
          featuresHtml := featuresHtmlOf templateType td
          detailsHtml := detailsHtml
          statsHtml := statsHtml }

/-- Line 698: `EMAIL_TEMPLATES[template_type].format(**template_vars)`
(the caller has already checked membership, so the lookup defaults to the
empty layout). -/
def renderHtml (templateType : String) (td : TemplateData) :
    Except PyErr String :=
  match buildTemplateVars templateType td with
  | .error e => .error e
  | .ok v => fmtRender v.find ((templateLookup templateType).getD [])

/-- Shallow embedding of `send_email_with_template` (lines 516-727):
validation in source order, render, then delegate to `send_email` with
`body_type="html"`, copying `template_type` onto a successful result.
A `KeyError` from the render maps to `MISSING_TEMPLATE_FIELD`, any other
exception to `UNEXPECTED_ERROR`. -/
def sendEmailWithTemplate (env : Env) (d : Option (List FileEntry))
    (tr : Transport) (toAddr subject templateType : String)
    (td : TemplateData) (cc bcc : Option String) :
    SendResult × List TEvent :=
  if toAddr.isEmpty then
    (errResult "收件人地址 (to) 必须是非空字符串" "INVALID_RECIPIENT", [])
  else if subject.isEmpty then
    (errResult "邮件主题 (subject) 必须是非空字符串" "INVALID_SUBJECT", [])
  else
    match templateLookup templateType with
    | Option.none =>
      (errResult ("不支持的模板类型: " ++ templateType
        ++ "。支持的类型：notification, welcome, alert, report")
        "INVALID_TEMPLATE_TYPE", [])
    | some _ =>
      if td.isEmpty then
        (errResult "template_data 必须是非空字典" "INVALID_TEMPLATE_DATA", [])
      else
        match renderHtml templateType td with
        | .error (.keyError k) =>
          (errResult ("模板数据缺少必需字段: " ++ pySq ++ k ++ pySq)
            "MISSING_TEMPLATE_FIELD", [])
        | .error (.otherError m) => (errResult m "UNEXPECTED_ERROR", [])
        | .ok html =>
          match sendEmail env d tr toAddr subject html cc bcc "html" with
          | (res, evs) =>
            (if res.success then { res with templateType := some templateType }
             else res, evs)

/-! ### Helper lemmas about the embedded operations -/

/-- Whether a trace contains any connection attempt. -/
def attemptsConnection (evs : List TEvent) : Bool :=
  evs.any (fun e =>
    match e with
    | .connectPlain _ _ => true
    | .connectSSL _ _ => true
    | _ => false)

theorem splitCommaCh_ne_nil (l : List Char) : splitCommaCh l ≠ [] := by
  induction l with
  | nil => simp [splitCommaCh]
  | cons c rest ih =>
    simp only [splitCommaCh]
    split
    · simp
    · split
      · simp
      · simp

theorem splitCommaCh_append_comma (l : List Char) :
    splitCommaCh (l ++ [',']) = splitCommaCh l ++ [[]] := by
  induction l with
  | nil => simp [splitCommaCh]
  | cons c rest ih =>
    by_cases hc : c = ','
    · subst hc
      simp [splitCommaCh, ih]
    · simp only [List.cons_append, splitCommaCh, hc, if_false]
      simp only [List.append_eq]
      rw [ih]
      cases h : splitCommaCh rest with
      | nil => exact absurd h (splitCommaCh_ne_nil rest)
      | cons g gs => simp [h]

theorem splitCommaCh_length (l : List Char) :
    (splitCommaCh l).length = l.count ',' + 1 := by
  induction l with
  | nil => simp [splitCommaCh]
  | cons c rest ih =>
    by_cases hc : c = ','
    · subst hc
      simp [splitCommaCh, ih, List.count_cons]
    · simp only [splitCommaCh, hc, if_false]
      cases h : splitCommaCh rest with
      | nil => exact absurd h (splitCommaCh_ne_nil rest)
      | cons g gs =>
        rw [h] at ih
        simp [List.count_cons, hc, ← ih]

theorem parseAddrList_ne_nil (s : String) : parseAddrList s ≠ [] := by
  simp [parseAddrList, splitCommaCh_ne_nil]

theorem parseAddrList_length (s : String) :
    (parseAddrList s).length = s.data.count ',' + 1 := by
  simp [parseAddrList, splitCommaCh_length]

theorem parseAddrList_append_comma (s : String) :
    parseAddrList (s ++ ",") = parseAddrList s ++ [""] := by
  have h : (s ++ ",").data = s.data ++ [','] := by
    simp [String.data_append]
  simp [parseAddrList, h, splitCommaCh_append_comma, pyStripCh]

theorem transportTail_send_mem {tr : Transport} {u pw : String}
    {m : OutgoingMsg} {r : List String} {m2 : OutgoingMsg} {r2 : List String}
    (h : TEvent.send m2 r2 ∈ (transportTail tr u pw m r).2) :
    m2 = m ∧ r2 = r := by
  obtain ⟨cp, st, cs, lg, sd, qt⟩ := tr
  simp only [transportTail] at h
  cases lg <;> cases sd <;> cases qt <;> simp_all

theorem transportTail_no_starttls {tr : Transport} {u pw : String}
    {m : OutgoingMsg} {r : List String} :
    TEvent.starttls ∉ (transportTail tr u pw m r).2 := by
  obtain ⟨cp, st, cs, lg, sd, qt⟩ := tr
  simp only [transportTail]
  cases lg <;> cases sd <;> cases qt <;> simp

theorem runTransport_send_mem {tr : Transport} {tls : Bool} {hst : String}
    {p : Int} {u pw : String} {m : OutgoingMsg} {r : List String}
    {m2 : OutgoingMsg} {r2 : List String}
    (h : TEvent.send m2 r2 ∈ (runTransport tr tls hst p u pw m r).2) :
    m2 = m ∧ r2 = r := by
  unfold runTransport at h
  rcases h2 : transportTail tr u pw m r with ⟨exc, evs⟩
  have htail : TEvent.send m2 r2 ∈ evs → m2 = m ∧ r2 = r := by
    intro hm
    exact @transportTail_send_mem tr u pw m r m2 r2 (by rw [h2]; exact hm)
  cases tls with
  | false =>
    simp only [Bool.false_eq_true, if_false] at h
    cases hcs : tr.connectSSL with
    | some e => simp [hcs] at h
    | none =>
      rw [hcs, h2] at h
      simp only [List.mem_cons] at h
      rcases h with h | h
      · cases h
      · exact htail h
  | true =>
    simp only [if_true] at h
    cases hcp : tr.connectPlain with
    | some e => simp [hcp] at h
    | none =>
      rw [hcp] at h
      cases hst2 : tr.starttls with
      | some e => simp [hst2] at h
      | none =>
        rw [hst2, h2] at h
        simp only [List.mem_cons] at h
        rcases h with h | h | h
        · cases h
        · cases h
        · exact htail h

theorem runTransport_none_trace {tr : Transport} {tls : Bool} {hst : String}
    {p : Int} {u pw : String} {m : OutgoingMsg} {r : List String} {evs : List TEvent}
    (h : runTransport tr tls hst p u pw m r = (none, evs)) :
    evs = (if tls then [TEvent.connectPlain hst p, TEvent.starttls]
           else [TEvent.connectSSL hst p])
          ++ [TEvent.login u pw, TEvent.send m r, TEvent.quit] := by
  obtain ⟨cp, st, cs, lg, sd, qt⟩ := tr
  cases tls <;>
    simp only [runTransport, transportTail, Bool.false_eq_true, if_false, if_true] at h <;>
    cases cp <;> cases st <;> cases cs <;> cases lg <;> cases sd <;> cases qt <;>
    simp_all

theorem runTransport_false_shape {tr : Transport} {hst : String}
    {p : Int} {u pw : String} {m : OutgoingMsg} {r : List String}
    {evs : List TEvent}
    (h : (runTransport tr false hst p u pw m r).2 = evs) :
    evs.head? = some (TEvent.connectSSL hst p) ∧ TEvent.starttls ∉ evs := by
  subst h
  simp only [runTransport, Bool.false_eq_true, if_false]
  rcases h2 : transportTail tr u pw m r with ⟨exc, evs2⟩
  have hnost : TEvent.starttls ∉ evs2 := by
    have := @transportTail_no_starttls tr u pw m r
    rw [h2] at this
    exact this
  cases hcs : tr.connectSSL <;> simp_all

theorem runTransport_true_shape {tr : Transport} {hst : String}
    {p : Int} {u pw : String} {m : OutgoingMsg} {r : List String}
    {evs : List TEvent}
    (h : (runTransport tr true hst p u pw m r).2 = evs) :
    ∃ rest, evs = TEvent.connectPlain hst p :: rest ∧
      (rest ≠ [] → rest.head? = some TEvent.starttls) := by
  subst h
  simp only [runTransport, if_true]
  cases hcp : tr.connectPlain with
  | some e => exact ⟨[], by simp⟩
  | none =>
    cases hst2 : tr.starttls with
    | some e => exact ⟨[TEvent.starttls], by simp⟩
    | none =>
      rcases h2 : transportTail tr u pw m r with ⟨exc, evs2⟩
      exact ⟨TEvent.starttls :: evs2, by simp⟩

theorem runTransport_none_send {tr : Transport} {tls : Bool} {hst : String}
    {p : Int} {u pw : String} {m : OutgoingMsg} {r : List String} {evs : List TEvent}
    (h : runTransport tr tls hst p u pw m r = (none, evs)) :
    TEvent.send m r ∈ evs := by
  rw [runTransport_none_trace h]
  cases tls <;> simp

theorem transportStage_trace (env : Env) (d : Option (List FileEntry))
    (tr : Transport) (toAddr subject body : String) (cc bcc : Option String)
    (bodyType : String) (port : Int) :
    (transportStage env d tr toAddr subject body cc bcc bodyType port).2 =
      (runTransport tr (useTlsOf env) (env.host.getD "") port
        (env.username.getD "") (env.password.getD "")
        (msgOf env d toAddr subject body cc bodyType)
        (allRecipientsOf toAddr cc bcc)).2 := by
  unfold transportStage
  rcases h : runTransport tr (useTlsOf env) (env.host.getD "") port
      (env.username.getD "") (env.password.getD "")
      (msgOf env d toAddr subject body cc bodyType)
      (allRecipientsOf toAddr cc bcc) with ⟨exc, evs⟩
  cases exc <;> simp

theorem sendEmail_split (env : Env) (d : Option (List FileEntry)) (tr : Transport)
    (toAddr subject body : String) (cc bcc : Option String) (bodyType : String) :
    (∃ r, sendEmail env d tr toAddr subject body cc bcc bodyType = (r, []) ∧
      r.success = false) ∨
    ∃ p, pyInt (env.port.getD "") = some p ∧
      sendEmail env d tr toAddr subject body cc bcc bodyType =
        transportStage env d tr toAddr subject body cc bcc bodyType p := by
  unfold sendEmail
  cases h : missingConfigList env with
  | cons m ms => exact Or.inl ⟨_, rfl, rfl⟩
  | nil =>
    by_cases c1 : toAddr.isEmpty = true
    · rw [if_pos c1]
      exact Or.inl ⟨_, rfl, rfl⟩
    · rw [if_neg c1]
      by_cases c2 : subject.isEmpty = true
      · rw [if_pos c2]
        exact Or.inl ⟨_, rfl, rfl⟩
      · rw [if_neg c2]
        by_cases c3 : body.isEmpty = true
        · rw [if_pos c3]
          exact Or.inl ⟨_, rfl, rfl⟩
        · rw [if_neg c3]
          by_cases c4 : ¬(bodyType = "plain" ∨ bodyType = "html")
          · rw [if_pos c4]
            exact Or.inl ⟨_, rfl, rfl⟩
          · rw [if_neg c4]
            cases ha : attachFailure d with
            | some f => exact Or.inl ⟨_, rfl, rfl⟩
            | none =>
              cases hp : pyInt (env.port.getD "") with
              | none => exact Or.inl ⟨_, rfl, rfl⟩
              | some p => exact Or.inr ⟨p, rfl, rfl⟩

theorem string_isEmpty_false {s : String} (h : s ≠ "") : s.isEmpty = false := by
  cases hb : s.isEmpty
  · rfl
  · exact absurd ((String.isEmpty_iff _).mp hb) h

theorem sendEmail_reach (env : Env) (d : Option (List FileEntry)) (tr : Transport)
    (toAddr subject body : String) (cc bcc : Option String) (bodyType : String)
    (p : Int)
    (h1 : missingConfigList env = [])
    (h2 : toAddr ≠ "") (h3 : subject ≠ "") (h4 : body ≠ "")
    (h5 : bodyType = "plain" ∨ bodyType = "html")
    (h6 : attachFailure d = none)
    (h7 : pyInt (env.port.getD "") = some p) :
    sendEmail env d tr toAddr subject body cc bcc bodyType =
      transportStage env d tr toAddr subject body cc bcc bodyType p := by
  unfold sendEmail
  rw [h1]
  simp only [string_isEmpty_false h2, string_isEmpty_false h3,
    string_isEmpty_false h4, Bool.false_eq_true, if_false,
    if_neg (not_not_intro h5), h6, h7]

theorem sendEmail_missing (env : Env) (d : Option (List FileEntry)) (tr : Transport)
    (toAddr subject body : String) (cc bcc : Option String) (bodyType : String)
    (m : String) (ms : List String)
    (h : missingConfigList env = m :: ms) :
    sendEmail env d tr toAddr subject body cc bcc bodyType =
      (missingConfigResult (m :: ms), []) := by
  unfold sendEmail
  rw [h]

theorem sendEmail_no_templateField (env : Env) (d : Option (List FileEntry))
    (tr : Transport) (toAddr subject body : String) (cc bcc : Option String)
    (bodyType : String) :
    (sendEmail env d tr toAddr subject body cc bcc bodyType).1.errorCode ≠
      some "MISSING_TEMPLATE_FIELD" := by
  unfold sendEmail
  cases h : missingConfigList env with
  | cons m ms => simp [missingConfigResult]
  | nil =>
    by_cases c1 : toAddr.isEmpty = true
    · rw [if_pos c1]
      simp [errResult]
    · rw [if_neg c1]
      by_cases c2 : subject.isEmpty = true
      · rw [if_pos c2]
        simp [errResult]
      · rw [if_neg c2]
        by_cases c3 : body.isEmpty = true
        · rw [if_pos c3]
          simp [errResult]
        · rw [if_neg c3]
          by_cases c4 : ¬(bodyType = "plain" ∨ bodyType = "html")
          · rw [if_pos c4]
            simp [errResult]
          · rw [if_neg c4]
            cases ha : attachFailure d with
            | some f => simp [errResult]
            | none =>
              cases hp : pyInt (env.port.getD "") with
              | none => simp [errResult]
              | some p =>
                unfold transportStage
                rcases hrt : runTransport tr (useTlsOf env) (env.host.getD "") p
                    (env.username.getD "") (env.password.getD "")
                    (msgOf env d toAddr subject body cc bodyType)
                    (allRecipientsOf toAddr cc bcc) with ⟨exc, evs⟩
                cases exc with
                | none => simp [hrt, okResult]
                | some e => cases e <;> simp [hrt, excResult, errResult]

theorem missingConfigList_ne_nil {env : Env}
    (h : optFalsy env.host = true ∨ optFalsy env.port = true ∨
      optFalsy env.username = true ∨ optFalsy env.password = true) :
    missingConfigList env ≠ [] := by
  unfold missingConfigList
  rcases h with h | h | h | h <;> simp [h, List.append_eq_nil]

theorem optFalsy_iff (o : Option String) :
    optFalsy o = true ↔ o = none ∨ o = some "" := by
  cases o with
  | none => simp [optFalsy]
  | some s =>
    simp only [optFalsy, Option.some.injEq]
    constructor
    · intro h
      exact Or.inr ((String.isEmpty_iff s).mp h)
    · rintro (h | h)
      · cases h
      · subst h
        rfl

theorem missingConfigList_eq_spec (env : Env) :
    missingConfigList env =
      (if env.host = none ∨ env.host = some "" then ["SMTP_HOST"] else []) ++
      (if env.port = none ∨ env.port = some "" then ["SMTP_PORT"] else []) ++
      (if env.username = none ∨ env.username = some "" then ["SMTP_USERNAME"] else []) ++
      (if env.password = none ∨ env.password = some "" then ["SMTP_PASSWORD"] else []) := by
  unfold missingConfigList
  simp only [optFalsy_iff]

/-- C10: in `send_email` the SMTP-configuration check runs before input
validation: when a required SMTP environment variable is absent AND
`to`/`subject`/`body` is empty or `body_type` is invalid, the result is
`MISSING_SMTP_CONFIG`, not an input-validation error kind. -/
theorem c10_config_check_before_validation
    (env : Env) (d : Option (List FileEntry)) (tr : Transport)
    (toAddr subject body : String) (cc bcc : Option String) (bodyType : String)
    (habs : env.host = none ∨ env.port = none ∨ env.username = none ∨
      env.password = none)
    (hbad : toAddr = "" ∨ subject = "" ∨ body = "" ∨
      (bodyType ≠ "plain" ∧ bodyType ≠ "html")) :
    (sendEmail env d tr toAddr subject body cc bcc bodyType).1.errorCode =
      some "MISSING_SMTP_CONFIG" ∧
    (sendEmail env d tr toAddr subject body cc bcc bodyType).1.success = false := by
  have hf : optFalsy env.host = true ∨ optFalsy env.port = true ∨
      optFalsy env.username = true ∨ optFalsy env.password = true := by
    rcases habs with h | h | h | h
    · exact Or.inl ((optFalsy_iff _).mpr (Or.inl h))
    · exact Or.inr (Or.inl ((optFalsy_iff _).mpr (Or.inl h)))
    · exact Or.inr (Or.inr (Or.inl ((optFalsy_iff _).mpr (Or.inl h))))
    · exact Or.inr (Or.inr (Or.inr ((optFalsy_iff _).mpr (Or.inl h))))
  cases hm : missingConfigList env with
  | nil => exact absurd hm (missingConfigList_ne_nil hf)
  | cons m ms =>
    rw [sendEmail_missing env d tr toAddr subject body cc bcc bodyType m ms hm]
    exact ⟨rfl, rfl⟩

/-- C10 witness: all four variables absent and an empty `to` still yield
`MISSING_SMTP_CONFIG`. -/
theorem c10_witness :
    (sendEmail ⟨none, none, none, none, none⟩ none
      ⟨none, none, none, none, none, none⟩ "" "" "" none none "plain").1.errorCode =
      some "MISSING_SMTP_CONFIG" ∧
    (sendEmail ⟨none, none, none, none, none⟩ none
      ⟨none, none, none, none, none, none⟩ "" "" "" none none "plain").1.success =
      false :=
  c10_config_check_before_validation ⟨none, none, none, none, none⟩ none
    ⟨none, none, none, none, none, none⟩ "" "" "" none none "plain"
    (Or.inl rfl) (Or.inl rfl)

/-- C5 exactly as the claim states it: whenever one of the four SMTP
variables is absent from the environment, the call fails with
`MISSING_SMTP_CONFIG`, `missing_configs` lists exactly the *absent* keys,
and no connection is attempted.  (The key-list conjunct follows the
wording of the claim; the code instead also lists present-but-empty values.) -/
def C5ClaimProp : Prop :=
  ∀ (env : Env) (d : Option (List FileEntry)) (tr : Transport)
    (toAddr subject body : String) (cc bcc : Option String) (bodyType : String),
    (env.host = none ∨ env.port = none ∨ env.username = none ∨
      env.password = none) →
    (sendEmail env d tr toAddr subject body cc bcc bodyType).1.success = false ∧
    (sendEmail env d tr toAddr subject body cc bcc bodyType).1.errorCode =
      some "MISSING_SMTP_CONFIG" ∧
    (sendEmail env d tr toAddr subject body cc bcc bodyType).1.missingConfigs =
      some ((if env.host = none then ["SMTP_HOST"] else []) ++
            (if env.port = none then ["SMTP_PORT"] else []) ++
            (if env.username = none then ["SMTP_USERNAME"] else []) ++
            (if env.password = none then ["SMTP_PASSWORD"] else [])) ∧
    attemptsConnection
      (sendEmail env d tr toAddr subject body cc bcc bodyType).2 = false

/-- C5 counterexample: with `SMTP_HOST` absent and `SMTP_PORT` present but
set to the empty string, the code lists BOTH keys in `missing_configs`,
while the claim demands exactly the absent ones (`["SMTP_HOST"]`): the
code treats a present-but-empty variable as missing too. -/
theorem c5_counterexample : ¬ C5ClaimProp := by
  intro h
  have h2 := (h ⟨none, some "", some "u", some "p", none⟩ none
    ⟨none, none, none, none, none, none⟩ "a@x.com" "s" "b" none none "plain"
    (Or.inl rfl)).2.2.1
  exact absurd h2 (by decide)

/-- C5 corrected: `send_email` treats a variable that is absent *or set to
the empty string* as missing; whenever any of the four is missing in this
sense, the result has `success=false`, `error_code=MISSING_SMTP_CONFIG`,
`missing_configs` lists exactly the keys whose value is absent or empty
(in the fixed HOST, PORT, USERNAME, PASSWORD order), and no transport call
at all is attempted. -/
theorem c5_missing_config_exact
    (env : Env) (d : Option (List FileEntry)) (tr : Transport)
    (toAddr subject body : String) (cc bcc : Option String) (bodyType : String)
    (habs : env.host = none ∨ env.host = some "" ∨ env.port = none ∨
      env.port = some "" ∨ env.username = none ∨ env.username = some "" ∨
      env.password = none ∨ env.password = some "") :
    (sendEmail env d tr toAddr subject body cc bcc bodyType).1.success = false ∧
    (sendEmail env d tr toAddr subject body cc bcc bodyType).1.errorCode =
      some "MISSING_SMTP_CONFIG" ∧
    (sendEmail env d tr toAddr subject body cc bcc bodyType).1.missingConfigs =
      some ((if env.host = none ∨ env.host = some "" then ["SMTP_HOST"] else []) ++
            (if env.port = none ∨ env.port = some "" then ["SMTP_PORT"] else []) ++
            (if env.username = none ∨ env.username = some "" then ["SMTP_USERNAME"] else []) ++
            (if env.password = none ∨ env.password = some "" then ["SMTP_PASSWORD"] else [])) ∧
    attemptsConnection
      (sendEmail env d tr toAddr subject body cc bcc bodyType).2 = false := by
  have hf : optFalsy env.host = true ∨ optFalsy env.port = true ∨
      optFalsy env.username = true ∨ optFalsy env.password = true := by
    rcases habs with h | h | h | h | h | h | h | h
    · exact Or.inl ((optFalsy_iff _).mpr (Or.inl h))
    · exact Or.inl ((optFalsy_iff _).mpr (Or.inr h))
    · exact Or.inr (Or.inl ((optFalsy_iff _).mpr (Or.inl h)))
    · exact Or.inr (Or.inl ((optFalsy_iff _).mpr (Or.inr h)))
    · exact Or.inr (Or.inr (Or.inl ((optFalsy_iff _).mpr (Or.inl h))))
    · exact Or.inr (Or.inr (Or.inl ((optFalsy_iff _).mpr (Or.inr h))))
    · exact Or.inr (Or.inr (Or.inr ((optFalsy_iff _).mpr (Or.inl h))))
    · exact Or.inr (Or.inr (Or.inr ((optFalsy_iff _).mpr (Or.inr h))))
  cases hm : missingConfigList env with
  | nil => exact absurd hm (missingConfigList_ne_nil hf)
  | cons m ms =>
    rw [sendEmail_missing env d tr toAddr subject body cc bcc bodyType m ms hm]
    refine ⟨rfl, rfl, ?_, rfl⟩
    show some (m :: ms) = _
    rw [← hm, missingConfigList_eq_spec]

/-- C5 witness: `SMTP_HOST` absent, `SMTP_PORT` empty, the rest set: the
corrected statement applies and `missing_configs` comes out as
`["SMTP_HOST", "SMTP_PORT"]`. -/
theorem c5_witness :
    (sendEmail ⟨none, some "", some "u", some "p", none⟩ none
      ⟨none, none, none, none, none, none⟩ "a@x.com" "s" "b" none none
      "plain").1.success = false ∧
    (sendEmail ⟨none, some "", some "u", some "p", none⟩ none
      ⟨none, none, none, none, none, none⟩ "a@x.com" "s" "b" none none
      "plain").1.errorCode = some "MISSING_SMTP_CONFIG" ∧
    (sendEmail ⟨none, some "", some "u", some "p", none⟩ none
      ⟨none, none, none, none, none, none⟩ "a@x.com" "s" "b" none none
      "plain").1.missingConfigs =
      some ((if (none : Option String) = none ∨ (none : Option String) = some "" then ["SMTP_HOST"] else []) ++
            (if (some "" : Option String) = none ∨ (some "" : Option String) = some "" then ["SMTP_PORT"] else []) ++
            (if (some "u" : Option String) = none ∨ (some "u" : Option String) = some "" then ["SMTP_USERNAME"] else []) ++
            (if (some "p" : Option String) = none ∨ (some "p" : Option String) = some "" then ["SMTP_PASSWORD"] else [])) ∧
    attemptsConnection
      (sendEmail ⟨none, some "", some "u", some "p", none⟩ none
        ⟨none, none, none, none, none, none⟩ "a@x.com" "s" "b" none none
        "plain").2 = false :=
  c5_missing_config_exact ⟨none, some "", some "u", some "p", none⟩ none
    ⟨none, none, none, none, none, none⟩ "a@x.com" "s" "b" none none "plain"
    (Or.inl rfl)

theorem sendEmail_invalid_port
    (env : Env) (d : Option (List FileEntry)) (tr : Transport)
    (toAddr subject body : String) (cc bcc : Option String) (bodyType : String)
    (h1 : missingConfigList env = [])
    (h2 : toAddr ≠ "") (h3 : subject ≠ "") (h4 : body ≠ "")
    (h5 : bodyType = "plain" ∨ bodyType = "html")
    (h6 : attachFailure d = none)
    (h7 : pyInt (env.port.getD "") = none) :
    sendEmail env d tr toAddr subject body cc bcc bodyType =
      (errResult ("SMTP_PORT 必须是数字: " ++ env.port.getD "") "INVALID_PORT",
        []) := by
  unfold sendEmail
  rw [h1]
  simp only [string_isEmpty_false h2, string_isEmpty_false h3,
    string_isEmpty_false h4, Bool.false_eq_true, if_false,
    if_neg (not_not_intro h5), h6, h7]

/-- C6: a non-numeric `SMTP_PORT` (one the embedded Python `int` parse
rejects) never leads to any connection attempt — the port is parsed before
the transport block — and for a call that reaches the port parse (configs
present, valid inputs, attachments fine) the result is exactly
`success=false` with `error_code=INVALID_PORT` and an empty transport
trace. -/
theorem c6_invalid_port :
    (∀ (env : Env) (d : Option (List FileEntry)) (tr : Transport)
      (toAddr subject body : String) (cc bcc : Option String) (bodyType : String),
      pyInt (env.port.getD "") = none →
      attemptsConnection
        (sendEmail env d tr toAddr subject body cc bcc bodyType).2 = false) ∧
    (∀ (env : Env) (d : Option (List FileEntry)) (tr : Transport)
      (toAddr subject body : String) (cc bcc : Option String) (bodyType : String),
      missingConfigList env = [] →
      toAddr ≠ "" → subject ≠ "" → body ≠ "" →
      (bodyType = "plain" ∨ bodyType = "html") →
      attachFailure d = none →
      pyInt (env.port.getD "") = none →
      (sendEmail env d tr toAddr subject body cc bcc bodyType).1.errorCode =
        some "INVALID_PORT" ∧
      (sendEmail env d tr toAddr subject body cc bcc bodyType).1.success = false ∧
      (sendEmail env d tr toAddr subject body cc bcc bodyType).2 = []) := by
  constructor
  · intro env d tr toAddr subject body cc bcc bodyType h
    rcases sendEmail_split env d tr toAddr subject body cc bcc bodyType with
      ⟨r, heq, _⟩ | ⟨p, hp, _⟩
    · rw [heq]
      rfl
    · rw [h] at hp
      cases hp
  · intro env d tr toAddr subject body cc bcc bodyType h1 h2 h3 h4 h5 h6 h7
    rw [sendEmail_invalid_port env d tr toAddr subject body cc bcc bodyType
      h1 h2 h3 h4 h5 h6 h7]
    exact ⟨rfl, rfl, rfl⟩

/-- C6 witness: `SMTP_PORT="abc"` with everything else valid yields
`INVALID_PORT` and an empty transport trace. -/
theorem c6_witness :
    pyInt "abc" = none ∧
    (sendEmail ⟨some "smtp.example.com", some "abc", some "u", some "p", none⟩
      none ⟨none, none, none, none, none, none⟩ "a@x.com" "s" "b" none none
      "plain").1.errorCode = some "INVALID_PORT" ∧
    (sendEmail ⟨some "smtp.example.com", some "abc", some "u", some "p", none⟩
      none ⟨none, none, none, none, none, none⟩ "a@x.com" "s" "b" none none
      "plain").1.success = false ∧
    (sendEmail ⟨some "smtp.example.com", some "abc", some "u", some "p", none⟩
      none ⟨none, none, none, none, none, none⟩ "a@x.com" "s" "b" none none
      "plain").2 = [] :=
  ⟨by decide,
   c6_invalid_port.2 ⟨some "smtp.example.com", some "abc", some "u", some "p", none⟩
     none ⟨none, none, none, none, none, none⟩ "a@x.com" "s" "b" none none "plain"
     (by decide) (by decide) (by decide) (by decide) (Or.inl rfl) rfl (by decide)⟩

/-- C8: recipient lists come from a comma split plus per-segment strip with
no filtering of empty entries — the list always has one entry per
comma-separated segment (`count ',' + 1` of them) and a trailing comma
yields a trailing empty-string recipient — and whenever the transport is
handed a message, its recipient list is exactly the to-list, cc-list and
bcc-list concatenated in that order (duplicates kept). -/
theorem c8_recipient_lists :
    (∀ s : String, (parseAddrList s).length = s.data.count ',' + 1) ∧
    (∀ s : String, parseAddrList (s ++ ",") = parseAddrList s ++ [""]) ∧
    (∀ (env : Env) (d : Option (List FileEntry)) (tr : Transport)
      (toAddr subject body : String) (cc bcc : Option String) (bodyType : String)
      (m : OutgoingMsg) (rcpts : List String),
      TEvent.send m rcpts ∈ (sendEmail env d tr toAddr subject body cc bcc bodyType).2 →
      rcpts = parseAddrList toAddr ++ optAddrs cc ++ optAddrs bcc) := by
  refine ⟨parseAddrList_length, parseAddrList_append_comma, ?_⟩
  intro env d tr toAddr subject body cc bcc bodyType m rcpts hmem
  rcases sendEmail_split env d tr toAddr subject body cc bcc bodyType with
    ⟨r, heq, _⟩ | ⟨p, hp, heq⟩
  · rw [heq] at hmem
    cases hmem
  · rw [heq, transportStage_trace] at hmem
    exact (runTransport_send_mem hmem).2

/-- C8 witness: a trailing comma yields a trailing empty-string recipient,
and a concrete delivered message goes to the to/cc/bcc concatenation. -/
theorem c8_witness :
    parseAddrList ("a@x.com" ++ ",") = parseAddrList "a@x.com" ++ [""] ∧
    ["a@x.com", "b@x.com", "c@x.com", "b@x.com"] =
      parseAddrList "a@x.com,b@x.com" ++ optAddrs (some "c@x.com") ++
        optAddrs (some "b@x.com") :=
  ⟨c8_recipient_lists.2.1 "a@x.com",
   c8_recipient_lists.2.2
     ⟨some "h", some "587", some "u", some "p", none⟩ none
     ⟨none, none, none, none, none, none⟩ "a@x.com,b@x.com" "s" "b"
     (some "c@x.com") (some "b@x.com") "plain"
     (msgOf ⟨some "h", some "587", some "u", some "p", none⟩ none
       "a@x.com,b@x.com" "s" "b" (some "c@x.com") "plain")
     ["a@x.com", "b@x.com", "c@x.com", "b@x.com"]
     (by decide)⟩

/-- C7: for every call that reaches the transport stage (some transport
call is issued): with `use_secure_upgrade` false the first call opens the
implicit-secure channel and the upgrade-in-place step is never invoked;
with it true (the default) the first call opens a plaintext connection,
any next call is the in-place upgrade, and authentication only ever
happens after the upgrade. -/
theorem c7_secure_upgrade
    (env : Env) (d : Option (List FileEntry)) (tr : Transport)
    (toAddr subject body : String) (cc bcc : Option String) (bodyType : String)
    (h : (sendEmail env d tr toAddr subject body cc bcc bodyType).2 ≠ []) :
    (useTlsOf env = false →
      (∃ p, (sendEmail env d tr toAddr subject body cc bcc bodyType).2.head? =
        some (TEvent.connectSSL (env.host.getD "") p)) ∧
      TEvent.starttls ∉ (sendEmail env d tr toAddr subject body cc bcc bodyType).2) ∧
    (useTlsOf env = true →
      ∃ p rest,
        (sendEmail env d tr toAddr subject body cc bcc bodyType).2 =
          TEvent.connectPlain (env.host.getD "") p :: rest ∧
        (rest ≠ [] → rest.head? = some TEvent.starttls) ∧
        (∀ u pw,
          TEvent.login u pw ∈ (sendEmail env d tr toAddr subject body cc bcc bodyType).2 →
          TEvent.starttls ∈ (sendEmail env d tr toAddr subject body cc bcc bodyType).2)) := by
  rcases sendEmail_split env d tr toAddr subject body cc bcc bodyType with
    ⟨r, heq, _⟩ | ⟨p, hp, heq⟩
  · rw [heq] at h
    exact absurd rfl h
  · rw [heq, transportStage_trace]
    constructor
    · intro htls
      rw [htls]
      have hs := @runTransport_false_shape tr (env.host.getD "") p
        (env.username.getD "") (env.password.getD "")
        (msgOf env d toAddr subject body cc bodyType)
        (allRecipientsOf toAddr cc bcc) _ rfl
      exact ⟨⟨p, hs.1⟩, hs.2⟩
    · intro htls
      rw [htls]
      obtain ⟨rest, hshape, hhead⟩ := @runTransport_true_shape tr
        (env.host.getD "") p
        (env.username.getD "") (env.password.getD "")
        (msgOf env d toAddr subject body cc bodyType)
        (allRecipientsOf toAddr cc bcc) _ rfl
      refine ⟨p, rest, hshape, hhead, ?_⟩
      intro u pw hl
      rw [hshape] at hl
      rcases List.mem_cons.mp hl with hl | hl
      · cases hl
      · have hne : rest ≠ [] := List.ne_nil_of_mem hl
        cases rest with
        | nil => exact absurd rfl hne
        | cons a t =>
          have : a = TEvent.starttls := by
            have := hhead hne
            simpa using this
          rw [hshape, this]
          exact List.mem_cons_of_mem _ (List.mem_cons_self _ _)

/-- C7 witness: `SMTP_USE_TLS="false"` with port 465 and a working
transport opens the implicit-secure channel first and never upgrades
in place. -/
theorem c7_witness :
    (∃ p, (sendEmail ⟨some "smtp.example.com", some "465", some "u", some "p",
        some "false"⟩ none ⟨none, none, none, none, none, none⟩
        "a@x.com" "s" "b" none none "plain").2.head? =
      some (TEvent.connectSSL "smtp.example.com" p)) ∧
    TEvent.starttls ∉ (sendEmail ⟨some "smtp.example.com", some "465", some "u",
      some "p", some "false"⟩ none ⟨none, none, none, none, none, none⟩
      "a@x.com" "s" "b" none none "plain").2 :=
  (c7_secure_upgrade ⟨some "smtp.example.com", some "465", some "u", some "p",
      some "false"⟩ none ⟨none, none, none, none, none, none⟩
      "a@x.com" "s" "b" none none "plain" (by decide)).1 (by decide)

/-- C4: every successful `send_email` call returns `success=true` with
`recipients` the parsed to-list, `cc` the parsed cc-list (or absent when
`cc` was falsy) and `bcc_count` the length of the parsed bcc-list, and the
delivery was attempted to the full to++cc++bcc recipient set. -/
theorem c4_success_result
    (env : Env) (d : Option (List FileEntry)) (tr : Transport)
    (toAddr subject body : String) (cc bcc : Option String) (bodyType : String)
    (h : (sendEmail env d tr toAddr subject body cc bcc bodyType).1.success = true) :
    (sendEmail env d tr toAddr subject body cc bcc bodyType).1.recipients =
      some (parseAddrList toAddr) ∧
    (sendEmail env d tr toAddr subject body cc bcc bodyType).1.cc =
      (if optFalsy cc then none else some (parseAddrList (cc.getD ""))) ∧
    (sendEmail env d tr toAddr subject body cc bcc bodyType).1.bccCount =
      some (optAddrs bcc).length ∧
    TEvent.send (msgOf env d toAddr subject body cc bodyType)
        (allRecipientsOf toAddr cc bcc) ∈
      (sendEmail env d tr toAddr subject body cc bcc bodyType).2 := by
  rcases sendEmail_split env d tr toAddr subject body cc bcc bodyType with
    ⟨r, heq, hfl⟩ | ⟨p, hp, heq⟩
  · rw [heq] at h
    rw [hfl] at h
    cases h
  · rw [heq] at h ⊢
    unfold transportStage at h ⊢
    rcases hrt : runTransport tr (useTlsOf env) (env.host.getD "") p
        (env.username.getD "") (env.password.getD "")
        (msgOf env d toAddr subject body cc bodyType)
        (allRecipientsOf toAddr cc bcc) with ⟨exc, evs⟩
    rw [hrt] at h
    cases exc with
    | some e =>
      exfalso
      cases e <;> simp [excResult, errResult] at h
    | none =>
      refine ⟨rfl, ?_, ?_, runTransport_none_send hrt⟩
      · show (if (optAddrs cc).isEmpty then none else some (optAddrs cc)) = _
        unfold optAddrs
        by_cases hcc : optFalsy cc = true
        · simp [hcc]
        · rw [if_neg hcc, if_neg hcc]
          have hne : (parseAddrList (cc.getD "")).isEmpty = false := by
            cases hh : (parseAddrList (cc.getD "")).isEmpty
            · rfl
            · exact absurd (List.isEmpty_iff.mp hh) (parseAddrList_ne_nil _)
          simp [hne]
      · show some (if (optAddrs bcc).isEmpty then 0 else (optAddrs bcc).length) = _
        by_cases hb : (optAddrs bcc).isEmpty = true
        · rw [if_pos hb, List.isEmpty_iff.mp hb]
          rfl
        · rw [if_neg hb]

/-- C4 witness: the concrete example from the claim — two to-addresses, one cc,
one bcc, a working transport — yields `recipients=["a@x.com","b@x.com"]`,
`cc=["c@x.com"]`, `bcc_count=1`, and the delivery was attempted to all
four addresses. -/
theorem c4_witness :
    (sendEmail ⟨some "h", some "587", some "u", some "p", none⟩ none
      ⟨none, none, none, none, none, none⟩ "a@x.com,b@x.com" "s" "b"
      (some "c@x.com") (some "d@x.com") "plain").1.recipients =
      some ["a@x.com", "b@x.com"] ∧
    (sendEmail ⟨some "h", some "587", some "u", some "p", none⟩ none
      ⟨none, none, none, none, none, none⟩ "a@x.com,b@x.com" "s" "b"
      (some "c@x.com") (some "d@x.com") "plain").1.cc = some ["c@x.com"] ∧
    (sendEmail ⟨some "h", some "587", some "u", some "p", none⟩ none
      ⟨none, none, none, none, none, none⟩ "a@x.com,b@x.com" "s" "b"
      (some "c@x.com") (some "d@x.com") "plain").1.bccCount = some 1 ∧
    TEvent.send
      (msgOf ⟨some "h", some "587", some "u", some "p", none⟩ none
        "a@x.com,b@x.com" "s" "b" (some "c@x.com") "plain")
      ["a@x.com", "b@x.com", "c@x.com", "d@x.com"] ∈
      (sendEmail ⟨some "h", some "587", some "u", some "p", none⟩ none
        ⟨none, none, none, none, none, none⟩ "a@x.com,b@x.com" "s" "b"
        (some "c@x.com") (some "d@x.com") "plain").2 :=
  c4_success_result ⟨some "h", some "587", some "u", some "p", none⟩ none
    ⟨none, none, none, none, none, none⟩ "a@x.com,b@x.com" "s" "b"
    (some "c@x.com") (some "d@x.com") "plain" (by decide)

/-- C1 exactly as the claim states it: whenever a call reaches the
transport stage (some login is attempted) and the authentication step
fails — smtplib signals this with `SMTPAuthenticationError` — the result
carries error code `SMTP_CONNECTION_ERROR`, the same kind used for
connection-setup failures. -/
def C1ClaimProp : Prop :=
  ∀ (env : Env) (d : Option (List FileEntry)) (tr : Transport)
    (toAddr subject body : String) (cc bcc : Option String) (bodyType : String)
    (m : String),
    tr.login = some (PyExc.smtpAuth m) →
    (∃ u pw, TEvent.login u pw ∈
      (sendEmail env d tr toAddr subject body cc bcc bodyType).2) →
    (sendEmail env d tr toAddr subject body cc bcc bodyType).1.errorCode =
      some "SMTP_CONNECTION_ERROR"

/-- C1 counterexample: a concrete call whose `login` raises
`SMTPAuthenticationError` is answered with the DISTINCT code
`SMTP_AUTH_ERROR` (handler at source lines 191-196), not
`SMTP_CONNECTION_ERROR`: the code does have a separate auth-error kind.
(The documented test only sees `SMTP_CONNECTION_ERROR` because its mock
raises a plain `Exception`, which falls through to the generic handler.) -/
theorem c1_counterexample : ¬ C1ClaimProp := by
  intro h
  have h2 := h ⟨some "h", some "587", some "u", some "p", none⟩ none
    ⟨none, none, none, some (PyExc.smtpAuth "535"), none, none⟩
    "a@x.com" "s" "b" none none "plain" "535" rfl
    ⟨"u", "p", by decide⟩
  exact absurd h2 (by decide)

/-- The error code each Python exception class maps to when raised at the
`login` step (handlers at source lines 191-208). -/
def loginErrCode : PyExc → String
  | .smtpAuth _ => "SMTP_AUTH_ERROR"
  | .smtpOther _ => "SMTP_ERROR"
  | .other _ => "SMTP_CONNECTION_ERROR"

theorem transportStage_login_exc
    (env : Env) (d : Option (List FileEntry)) (tr : Transport)
    (toAddr subject body : String) (cc bcc : Option String) (bodyType : String)
    (p : Int) (e : PyExc)
    (h8 : useTlsOf env = true → tr.connectPlain = none ∧ tr.starttls = none)
    (h9 : useTlsOf env = false → tr.connectSSL = none)
    (h10 : tr.login = some e) :
    transportStage env d tr toAddr subject body cc bcc bodyType p =
      (excResult e,
        (if useTlsOf env then
          [TEvent.connectPlain (env.host.getD "") p, TEvent.starttls]
         else [TEvent.connectSSL (env.host.getD "") p]) ++
        [TEvent.login (env.username.getD "") (env.password.getD "")]) := by
  cases htls : useTlsOf env with
  | false =>
    have hcs := h9 htls
    simp [transportStage, runTransport, transportTail, htls, hcs, h10]
  | true =>
    obtain ⟨hcp, hst⟩ := h8 htls
    simp [transportStage, runTransport, transportTail, htls, hcp, hst, h10]

/-- C1 corrected: a call that reaches the login step classifies a login
failure by its Python exception class: `SMTPAuthenticationError` maps to
the distinct `SMTP_AUTH_ERROR`, any other `SMTPException` to `SMTP_ERROR`,
and only a non-SMTP exception (as the mock of the documented test raises) to
`SMTP_CONNECTION_ERROR`. -/
theorem c1_login_failure_codes
    (env : Env) (d : Option (List FileEntry)) (tr : Transport)
    (toAddr subject body : String) (cc bcc : Option String) (bodyType : String)
    (p : Int) (e : PyExc)
    (h1 : missingConfigList env = [])
    (h2 : toAddr ≠ "") (h3 : subject ≠ "") (h4 : body ≠ "")
    (h5 : bodyType = "plain" ∨ bodyType = "html")
    (h6 : attachFailure d = none)
    (h7 : pyInt (env.port.getD "") = some p)
    (h8 : useTlsOf env = true → tr.connectPlain = none ∧ tr.starttls = none)
    (h9 : useTlsOf env = false → tr.connectSSL = none)
    (h10 : tr.login = some e) :
    (sendEmail env d tr toAddr subject body cc bcc bodyType).1 = excResult e ∧
    (sendEmail env d tr toAddr subject body cc bcc bodyType).1.errorCode =
      some (loginErrCode e) ∧
    (sendEmail env d tr toAddr subject body cc bcc bodyType).1.success = false ∧
    TEvent.login (env.username.getD "") (env.password.getD "") ∈
      (sendEmail env d tr toAddr subject body cc bcc bodyType).2 := by
  rw [sendEmail_reach env d tr toAddr subject body cc bcc bodyType p
    h1 h2 h3 h4 h5 h6 h7]
  rw [transportStage_login_exc env d tr toAddr subject body cc bcc bodyType p e
    h8 h9 h10]
  refine ⟨rfl, ?_, ?_, by cases useTlsOf env <;> simp⟩
  · cases e <;> rfl
  · cases e <;> rfl

/-- C1 witness: with valid config and transport whose `login` raises
`SMTPAuthenticationError("535")`, the corrected statement applies and the
code is the distinct `SMTP_AUTH_ERROR`. -/
theorem c1_witness :
    (sendEmail ⟨some "h", some "587", some "u", some "p", none⟩ none
      ⟨none, none, none, some (PyExc.smtpAuth "535"), none, none⟩
      "a@x.com" "s" "b" none none "plain").1 =
      excResult (PyExc.smtpAuth "535") ∧
    (sendEmail ⟨some "h", some "587", some "u", some "p", none⟩ none
      ⟨none, none, none, some (PyExc.smtpAuth "535"), none, none⟩
      "a@x.com" "s" "b" none none "plain").1.errorCode =
      some (loginErrCode (PyExc.smtpAuth "535")) ∧
    (sendEmail ⟨some "h", some "587", some "u", some "p", none⟩ none
      ⟨none, none, none, some (PyExc.smtpAuth "535"), none, none⟩
      "a@x.com" "s" "b" none none "plain").1.success = false ∧
    TEvent.login "u" "p" ∈
      (sendEmail ⟨some "h", some "587", some "u", some "p", none⟩ none
        ⟨none, none, none, some (PyExc.smtpAuth "535"), none, none⟩
        "a@x.com" "s" "b" none none "plain").2 :=
  c1_login_failure_codes ⟨some "h", some "587", some "u", some "p", none⟩ none
    ⟨none, none, none, some (PyExc.smtpAuth "535"), none, none⟩
    "a@x.com" "s" "b" none none "plain" 587 (PyExc.smtpAuth "535")
    rfl (by decide) (by decide) (by decide) (Or.inl rfl) rfl (by decide)
    (fun _ => ⟨rfl, rfl⟩) (fun hf => by cases hf) rfl

theorem bulkLoop_spec (f : String → SendResult) (rs : List String)
    (acc : List BulkItem) (s fl : Nat) :
    bulkLoop f rs acc s fl =
      (acc ++ rs.map (bulkItemOf f),
       s + (rs.map (bulkItemOf f)).countP (fun i => i.success),
       fl + (rs.map (bulkItemOf f)).countP (fun i => !i.success)) := by
  induction rs generalizing acc s fl with
  | nil => simp [bulkLoop]
  | cons r rest ih =>
    simp only [bulkLoop, List.map_cons, List.countP_cons, ih]
    by_cases hr : (f r).success = true
    · simp [bulkItemOf, hr]
      omega
    · simp only [Bool.not_eq_true] at hr
      simp [bulkItemOf, hr]
      omega

/-- The per-recipient detail lines `send_bulk_email` produces: one
single-send call per recipient, in input order. -/
def bulkItemsOf (env : Env) (d : Option (List FileEntry))
    (trOf : String → Transport) (subject body bodyType : String)
    (recipients : List String) : List BulkItem :=
  recipients.map (bulkItemOf (fun r =>
    (sendEmail env d (trOf r) r subject body none none bodyType).1))

/-- C3: for every bulk call with non-empty recipients, subject and body,
the single-send path is invoked once per recipient in input order (the
detail list is exactly the per-recipient map of single sends, so one
failure never prevents later attempts), and the aggregate satisfies
`total = len(recipients)`, `succeeded + failed = total`,
`success = (failed == 0)`, details in input order. -/
theorem c3_bulk_aggregate (env : Env) (d : Option (List FileEntry))
    (trOf : String → Transport) (recipients : List String)
    (subject body bodyType : String)
    (h1 : recipients ≠ []) (h2 : subject ≠ "") (h3 : body ≠ "") :
    sendBulkEmail env d trOf recipients subject body bodyType =
      BulkResult.okR
        (((bulkItemsOf env d trOf subject body bodyType recipients).countP
          (fun i => !i.success)) == 0)
        recipients.length
        ((bulkItemsOf env d trOf subject body bodyType recipients).countP
          (fun i => i.success))
        ((bulkItemsOf env d trOf subject body bodyType recipients).countP
          (fun i => !i.success))
        (bulkItemsOf env d trOf subject body bodyType recipients) ∧
    (bulkItemsOf env d trOf subject body bodyType recipients).countP
        (fun i => i.success) +
      (bulkItemsOf env d trOf subject body bodyType recipients).countP
        (fun i => !i.success) = recipients.length ∧
    (bulkItemsOf env d trOf subject body bodyType recipients).map
      (fun i => i.recipient) = recipients := by
  have hremp : recipients.isEmpty = false := by
    cases hh : recipients.isEmpty
    · rfl
    · exact absurd (List.isEmpty_iff.mp hh) h1
  refine ⟨?_, ?_, ?_⟩
  · unfold sendBulkEmail
    simp only [hremp, string_isEmpty_false h2, string_isEmpty_false h3,
      Bool.false_eq_true, if_false]
    rw [bulkLoop_spec]
    simp [bulkItemsOf]
  · have hcnt := List.length_eq_countP_add_countP (fun i => i.success)
      (bulkItemsOf env d trOf subject body bodyType recipients)
    have hfun : (fun (a : BulkItem) => (decide ¬(a.success = true) : Bool)) =
        (fun i : BulkItem => !i.success) := by
      funext a
      cases h : a.success <;> simp [h]
    rw [hfun] at hcnt
    have hlen : (bulkItemsOf env d trOf subject body bodyType recipients).length =
        recipients.length := by
      simp [bulkItemsOf]
    omega
  · unfold bulkItemsOf
    rw [List.map_map]
    rw [show ((fun (i : BulkItem) => i.recipient) ∘
        bulkItemOf (fun r =>
          (sendEmail env d (trOf r) r subject body none none bodyType).1)) =
        id from rfl]
    exact List.map_id recipients

/-- C3 witness: three recipients where only `bad@x.com` fails (its login
raises an auth error) give `total=3, succeeded=2, failed=1, success=false`
with the single failing detail line in original position. -/
theorem c3_witness :
    sendBulkEmail ⟨some "h", some "587", some "u", some "p", none⟩ none
      (fun r => if r = "bad@x.com" then
        ⟨none, none, none, some (PyExc.smtpAuth "x"), none, none⟩
        else ⟨none, none, none, none, none, none⟩)
      ["ok@x.com", "bad@x.com", "ok2@x.com"] "Bulk" "Body" "plain" =
      BulkResult.okR false 3 2 1
        (bulkItemsOf ⟨some "h", some "587", some "u", some "p", none⟩ none
          (fun r => if r = "bad@x.com" then
            ⟨none, none, none, some (PyExc.smtpAuth "x"), none, none⟩
            else ⟨none, none, none, none, none, none⟩)
          "Bulk" "Body" "plain" ["ok@x.com", "bad@x.com", "ok2@x.com"]) ∧
    bulkItemsOf ⟨some "h", some "587", some "u", some "p", none⟩ none
      (fun r => if r = "bad@x.com" then
        ⟨none, none, none, some (PyExc.smtpAuth "x"), none, none⟩
        else ⟨none, none, none, none, none, none⟩)
      "Bulk" "Body" "plain" ["ok@x.com", "bad@x.com", "ok2@x.com"] =
      [⟨"ok@x.com", true, none, none⟩,
       ⟨"bad@x.com", false, some "SMTP 认证失败，请检查用户名和密码",
        some "SMTP_AUTH_ERROR"⟩,
       ⟨"ok2@x.com", true, none, none⟩] :=
  ⟨(c3_bulk_aggregate ⟨some "h", some "587", some "u", some "p", none⟩ none
      (fun r => if r = "bad@x.com" then
        ⟨none, none, none, some (PyExc.smtpAuth "x"), none, none⟩
        else ⟨none, none, none, none, none, none⟩)
      ["ok@x.com", "bad@x.com", "ok2@x.com"] "Bulk" "Body" "plain"
      (by decide) (by decide) (by decide)).1,
   by decide⟩

/-- One `feature-item` div per list element, in order: the specification
shape of the features fragment body. -/
def featuresConcat : List PyVal → String
  | [] => ""
  | f :: fs =>
    "<div class=\"feature-item\">" ++ pyStr f ++ "</div>" ++ featuresConcat fs

theorem foldl_featuresConcat (xs : List PyVal) (init : String) :
    xs.foldl
      (fun acc f => acc ++ "<div class=\"feature-item\">" ++ pyStr f ++ "</div>")
      init = init ++ featuresConcat xs := by
  induction xs generalizing init with
  | nil => simp [featuresConcat]
  | cons x rest ih =>
    rw [List.foldl_cons, ih]
    simp [featuresConcat, String.append_assoc]

/-- C9: in the welcome layout, the button fragment is emitted only when
both `button_text` and `button_url` are truthy (absent fields give the
empty fragment, never placeholder text), and a features list renders into
the features wrapper with exactly one `feature-item` entry per element;
an absent `features` key gives the empty fragment. -/
theorem c9_welcome_fragments (td : TemplateData) :
    (buttonHtmlOf td ≠ "" →
      pyTruthy (tdGet td "button_text") = true ∧
      pyTruthy (tdGet td "button_url") = true) ∧
    (tdGet td "button_text" = PyVal.none ∨ tdGet td "button_url" = PyVal.none →
      buttonHtmlOf td = "") ∧
    (tdGet td "features" = PyVal.none → featuresHtmlOf "welcome" td = "") ∧
    (∀ fs, tdGet td "features" = PyVal.list fs → fs ≠ [] →
      featuresHtmlOf "welcome" td =
        "<div class=\"features\">" ++
          featuresConcat (fs.map (fun x => PyVal.str x)) ++ "</div>") := by
  refine ⟨?_, ?_, ?_, ?_⟩
  · intro hne
    unfold buttonHtmlOf at hne
    by_cases hb : (pyTruthy (tdGet td "button_text") &&
        pyTruthy (tdGet td "button_url")) = true
    · exact ⟨(Bool.and_eq_true _ _ ▸ hb).1, (Bool.and_eq_true _ _ ▸ hb).2⟩
    · rw [if_neg hb] at hne
      exact absurd rfl hne
  · intro habs
    unfold buttonHtmlOf
    rcases habs with h | h <;> rw [h] <;> simp [pyTruthy]
  · intro habs
    unfold featuresHtmlOf
    rw [habs]
    simp [pyTruthy]
  · intro fs hget hne
    unfold featuresHtmlOf
    rw [hget]
    have htr : pyTruthy (PyVal.list fs) = true := by
      cases fs with
      | nil => exact absurd rfl hne
      | cons a l => simp [pyTruthy]
    rw [htr]
    simp only [Bool.and_true, pyIterate]
    rw [if_pos (by rfl)]
    rw [foldl_featuresConcat]

/-- C9 witness: `features=["f1","f2"]` renders exactly two feature items
and, with no button fields supplied, an empty button fragment. -/
theorem c9_witness :
    featuresHtmlOf "welcome" [("features", PyVal.list ["f1", "f2"])] =
      "<div class=\"features\">" ++
        featuresConcat [PyVal.str "f1", PyVal.str "f2"] ++ "</div>" ∧
    buttonHtmlOf [("features", PyVal.list ["f1", "f2"])] = "" :=
  ⟨(c9_welcome_fragments [("features", PyVal.list ["f1", "f2"])]).2.2.2
     ["f1", "f2"] rfl (by simp),
   (c9_welcome_fragments [("features", PyVal.list ["f1", "f2"])]).2.1
     (Or.inl rfl)⟩

theorem fmtRender_keyError {vars : String → Option String} {toks : List FmtSeg}
    {k : String} (h : fmtRender vars toks = .error (.keyError k)) :
    FmtSeg.hole k ∈ toks ∧ vars k = none := by
  induction toks with
  | nil => simp [fmtRender] at h
  | cons t ts ih =>
    cases t with
    | lit s =>
      simp only [fmtRender] at h
      cases hr : fmtRender vars ts with
      | ok v =>
        rw [hr] at h
        simp [Except.map] at h
      | error e =>
        rw [hr] at h
        simp only [Except.map] at h
        cases h
        obtain ⟨hmem, hv⟩ := ih hr
        exact ⟨List.mem_cons_of_mem _ hmem, hv⟩
    | hole n =>
      simp only [fmtRender] at h
      cases hv : vars n with
      | none =>
        rw [hv] at h
        simp only [Except.error.injEq, PyErr.keyError.injEq] at h
        subst h
        exact ⟨List.mem_cons_self _ _, hv⟩
      | some v =>
        rw [hv] at h
        cases hr : fmtRender vars ts with
        | ok w =>
          rw [hr] at h
          simp [Except.map] at h
        | error e =>
          rw [hr] at h
          simp only [Except.map] at h
          cases h
          obtain ⟨hmem, hw⟩ := ih hr
          exact ⟨List.mem_cons_of_mem _ hmem, hw⟩

theorem detailsHtmlOf_no_keyError (templateType : String) (td : TemplateData)
    (k : String) : detailsHtmlOf templateType td ≠ .error (.keyError k) := by
  unfold detailsHtmlOf
  split
  · split <;> simp
  · simp

theorem statsHtmlOf_no_keyError (templateType : String) (td : TemplateData)
    (k : String) : statsHtmlOf templateType td ≠ .error (.keyError k) := by
  unfold statsHtmlOf
  split
  · split <;> simp
  · simp

theorem buildTemplateVars_no_keyError (templateType : String)
    (td : TemplateData) (k : String) :
    buildTemplateVars templateType td ≠ .error (.keyError k) := by
  unfold buildTemplateVars
  cases hd : detailsHtmlOf templateType td with
  | error e =>
    intro hcontra
    simp only [Except.error.injEq] at hcontra
    rw [hcontra] at hd
    exact detailsHtmlOf_no_keyError templateType td k hd
  | ok v =>
    cases hs : statsHtmlOf templateType td with
    | error e =>
      intro hcontra
      simp only [Except.error.injEq] at hcontra
      rw [hcontra] at hs
      exact statsHtmlOf_no_keyError templateType td k hs
    | ok w => simp

theorem tmplNotification_holes :
    tmplNotification.filterMap holeNameOf =
      ["title", "heading", "message", "button_html", "extra_content", "footer"] := by
  rfl

theorem tmplWelcome_holes :
    tmplWelcome.filterMap holeNameOf =
      ["title", "message", "features_html", "button_html", "extra_content",
       "footer"] := by
  rfl

theorem tmplAlert_holes :
    tmplAlert.filterMap holeNameOf =
      ["title", "alert_title", "message", "details_html", "button_html",
       "extra_content", "footer"] := by
  rfl

theorem tmplReport_holes :
    tmplReport.filterMap holeNameOf =
      ["title", "summary_title", "message", "stats_html", "button_html",
       "extra_content", "footer"] := by
  rfl

theorem templateLookup_cases {templateType : String} {segs : List FmtSeg}
    (h : templateLookup templateType = some segs) :
    segs = tmplNotification ∨ segs = tmplWelcome ∨ segs = tmplAlert ∨
      segs = tmplReport := by
  unfold templateLookup at h
  obtain ⟨kv, hfind, hsnd⟩ := Option.map_eq_some'.mp h
  have hmem := List.mem_of_find?_eq_some hfind
  simp only [EMAIL_TEMPLATES, List.mem_cons, List.not_mem_nil, or_false] at hmem
  rcases hmem with hkv | hkv | hkv | hkv <;> subst hkv <;> rw [← hsnd] <;> simp

theorem findVars_cover (v : TemplateVars) (k : String)
    (hk : k ∈ ["title", "heading", "message", "alert_title", "summary_title",
      "extra_content", "footer", "button_html", "features_html", "details_html",
      "stats_html"]) :
    (v.find k).isSome = true := by
  simp only [List.mem_cons, List.not_mem_nil, or_false] at hk
  rcases hk with h | h | h | h | h | h | h | h | h | h | h <;> subst h <;>
    simp [TemplateVars.find]

theorem renderHtml_no_keyError {templateType : String} {td : TemplateData}
    {k : String} (hv : (templateLookup templateType).isSome = true) :
    renderHtml templateType td ≠ .error (.keyError k) := by
  unfold renderHtml
  cases hb : buildTemplateVars templateType td with
  | error e =>
    intro hcontra
    simp only [Except.error.injEq] at hcontra
    rw [hcontra] at hb
    exact buildTemplateVars_no_keyError templateType td k hb
  | ok v =>
    obtain ⟨segs, hsegs⟩ := Option.isSome_iff_exists.mp hv
    rw [hsegs]
    intro hr
    simp only [Option.getD_some] at hr
    obtain ⟨hmem, hnone⟩ := fmtRender_keyError hr
    have hhole : k ∈ segs.filterMap holeNameOf :=
      List.mem_filterMap.mpr ⟨FmtSeg.hole k, hmem, rfl⟩
    have hcov : (v.find k).isSome = true := by
      rcases templateLookup_cases hsegs with hs | hs | hs | hs <;> subst hs
      · rw [tmplNotification_holes] at hhole
        apply findVars_cover
        simp only [List.mem_cons, List.not_mem_nil, or_false] at hhole
        simp only [List.mem_cons, List.not_mem_nil, or_false]
        tauto
      · rw [tmplWelcome_holes] at hhole
        apply findVars_cover
        simp only [List.mem_cons, List.not_mem_nil, or_false] at hhole
        simp only [List.mem_cons, List.not_mem_nil, or_false]
        tauto
      · rw [tmplAlert_holes] at hhole
        apply findVars_cover
        simp only [List.mem_cons, List.not_mem_nil, or_false] at hhole
        simp only [List.mem_cons, List.not_mem_nil, or_false]
        tauto
      · rw [tmplReport_holes] at hhole
        apply findVars_cover
        simp only [List.mem_cons, List.not_mem_nil, or_false] at hhole
        simp only [List.mem_cons, List.not_mem_nil, or_false]
        tauto
    rw [hnone] at hcov
    cases hcov

theorem templateSend_no_missing_field
    (env : Env) (d : Option (List FileEntry)) (tr : Transport)
    (toAddr subject templateType : String) (td : TemplateData)
    (cc bcc : Option String)
    (hv : (templateLookup templateType).isSome = true) :
    (sendEmailWithTemplate env d tr toAddr subject templateType td cc
      bcc).1.errorCode ≠ some "MISSING_TEMPLATE_FIELD" := by
  unfold sendEmailWithTemplate
  by_cases c1 : toAddr.isEmpty = true
  · rw [if_pos c1]
    simp [errResult]
  · rw [if_neg c1]
    by_cases c2 : subject.isEmpty = true
    · rw [if_pos c2]
      simp [errResult]
    · rw [if_neg c2]
      obtain ⟨segs, hsegs⟩ := Option.isSome_iff_exists.mp hv
      rw [hsegs]
      by_cases c3 : td.isEmpty = true
      · rw [if_pos c3]
        simp [errResult]
      · rw [if_neg c3]
        cases hr : renderHtml templateType td with
        | error e =>
          cases e with
          | keyError k => exact absurd hr (renderHtml_no_keyError hv)
          | otherError m => simp [errResult]
        | ok html =>
          rcases hs : sendEmail env d tr toAddr subject html cc bcc "html"
            with ⟨res, evs⟩
          have hne := sendEmail_no_templateField env d tr toAddr subject html
            cc bcc "html"
          rw [hs] at hne
          show (match sendEmail env d tr toAddr subject html cc bcc "html" with
            | (res2, evs2) =>
              ((if res2.success = true then
                SendResult.mk res2.success res2.message res2.error res2.errorCode
                  res2.missingConfigs res2.recipients res2.cc res2.bccCount
                  (some templateType)
              else res2), evs2)).1.errorCode ≠ some "MISSING_TEMPLATE_FIELD"
          rw [hs]
          show (if res.success = true then
              SendResult.mk res.success res.message res.error res.errorCode
                res.missingConfigs res.recipients res.cc res.bccCount
                (some templateType)
            else res).errorCode ≠ some "MISSING_TEMPLATE_FIELD"
          by_cases hsucc : res.success = true
          · rw [if_pos hsucc]
            exact hne
          · rw [if_neg hsucc]
            exact hne

/-- C2 exactly as the claim states it: some call with a valid template
type and a non-empty `fields` mapping is answered with
`error_code=MISSING_TEMPLATE_FIELD`. -/
def C2ClaimProp : Prop :=
  ∃ (env : Env) (d : Option (List FileEntry)) (tr : Transport)
    (toAddr subject templateType : String) (td : TemplateData)
    (cc bcc : Option String),
    (templateLookup templateType).isSome = true ∧ td ≠ [] ∧
    (sendEmailWithTemplate env d tr toAddr subject templateType td cc
      bcc).1.errorCode = some "MISSING_TEMPLATE_FIELD"

/-- C2 counterexample: no such call exists.  The `template_vars` dictionary
built at lines 645-695 always carries every placeholder of every layout
(missing keys default to empty strings or empty fragments), so
`format(**template_vars)` can never raise `KeyError` and the
`MISSING_TEMPLATE_FIELD` handler is unreachable for valid template types;
malformed `fields` values surface as `UNEXPECTED_ERROR` instead. -/
theorem c2_counterexample : ¬ C2ClaimProp := by
  rintro ⟨env, d, tr, toAddr, subject, templateType, td, cc, bcc, hv, _, hcode⟩
  exact templateSend_no_missing_field env d tr toAddr subject templateType td
    cc bcc hv hcode

/-- C2 corrected: for every call with a valid template type and non-empty
fields the result never carries `MISSING_TEMPLATE_FIELD` — the
placeholders of each layout are all pre-populated with defaults, so the missing-field
path is dead code. -/
theorem c2_no_missing_template_field
    (env : Env) (d : Option (List FileEntry)) (tr : Transport)
    (toAddr subject templateType : String) (td : TemplateData)
    (cc bcc : Option String)
    (hv : (templateLookup templateType).isSome = true) (hne : td ≠ []) :
    (sendEmailWithTemplate env d tr toAddr subject templateType td cc
      bcc).1.errorCode ≠ some "MISSING_TEMPLATE_FIELD" :=
  templateSend_no_missing_field env d tr toAddr subject templateType td cc
    bcc hv

/-- C2 witness: a welcome-template call whose fields omit every
placeholder but `title` still does not produce `MISSING_TEMPLATE_FIELD`
(here the SMTP config is absent, so the call fails with
`MISSING_SMTP_CONFIG` instead). -/
theorem c2_witness :
    (sendEmailWithTemplate ⟨none, none, none, none, none⟩ none
      ⟨none, none, none, none, none, none⟩ "a@x.com" "s" "welcome"
      [("title", PyVal.str "T")] none none).1.errorCode ≠
      some "MISSING_TEMPLATE_FIELD" :=
  c2_no_missing_template_field ⟨none, none, none, none, none⟩ none
    ⟨none, none, none, none, none, none⟩ "a@x.com" "s" "welcome"
    [("title", PyVal.str "T")] none none (by decide) (by simp)
